import Mathlib

/-!
Verification of the invoice-driven stock reconciliation logic of a small
Flask + sqlite inventory/billing application (`app.py`).

The embedding models the four tables created by `init_db` as lists of rows
and the three invoice endpoints (`api_invoice_save`, `api_invoice_update`,
`api_invoice_delete`) as pure functions on a `DB` state.  SQL statements are
translated statement by statement:

* `SELECT ... WHERE id=?` + `fetchone()` becomes `List.find?` on the row list;
* `UPDATE products SET qty = qty ± ? WHERE id=?` becomes a `List.map` that
  rewrites every row whose `id` matches (the primary key makes it unique in
  the real database, but the translation does not depend on that);
* `DELETE ... WHERE ...` becomes `List.filter` with the negated condition;
* `INSERT` appends a row; the `invoices.id` AUTOINCREMENT counter is carried
  explicitly in the state because `cur.lastrowid` is returned to the caller.

Python reads JSON fields with patterns like `int(it.get("qty") or 0)`;
absent/null fields are modelled as `Option` and the `or`-coercion as
`Option.getD` (for a numeric field the falsy value `0` coerces to `0`
itself, so `getD` agrees with Python `or`); for strings, where the empty
string is falsy and genuinely falls back to the default, the dedicated
`orStr` is used.  Floats that are only stored and never computed with
(price, discount, tax, amount, total) are carried as `Rat`.
-/

set_option linter.unusedVariables false

namespace StockApp

/-- Row of the `products` table (`init_db` in app.py). -/
structure Product where
  id : Int
  name : String
  qty : Int
  price : Rat
  category : String
  default_tax : Rat
  default_discount : Rat
  deriving DecidableEq

/-- Row of the `invoices` table. -/
structure Invoice where
  id : Nat
  invoice_no : String
  year : Nat
  customer_id : Option Int
  customer_name : String
  customer_phone : String
  date : String
  total : Rat
  deriving DecidableEq

/-- Row of the `invoice_items` table.  The AUTOINCREMENT `id` column of this
table is never read by any route, so it is not modelled. -/
structure InvoiceItem where
  invoice_id : Nat
  product_id : Int
  item : String
  qty : Int
  price : Rat
  discount : Rat
  tax : Rat
  amount : Rat
  deriving DecidableEq

/-- The persistent sqlite state touched by the invoice routes.
`next_invoice_id` is the AUTOINCREMENT counter of the `invoices` table
(`cur.lastrowid` after the header INSERT).  The `customers` table is never
read or written by the invoice routes and is omitted. -/
@[ext]
structure DB where
  products : List Product
  invoices : List Invoice
  invoice_items : List InvoiceItem
  next_invoice_id : Nat
  deriving DecidableEq

/-- One element of the JSON `items` array of a save/update request.
`none` models an absent or null field. -/
structure ReqItem where
  product_id : Option Int
  item : Option String
  qty : Option Int
  price : Option Rat
  discount : Option Rat
  tax : Option Rat
  amount : Option Rat
  deriving DecidableEq

/-- Body of a `POST /api/invoice/save` request. -/
structure SaveReq where
  customer_id : Option Int
  customer : Option String
  phone : Option String
  date : Option String
  total : Option Rat
  items : Option (List ReqItem)
  deriving DecidableEq

/-- Body of a `POST /api/invoice/update/<inv_id>` request (`customer_id` is
not read by the update route). -/
structure UpdateReq where
  customer : Option String
  phone : Option String
  date : Option String
  total : Option Rat
  items : Option (List ReqItem)
  deriving DecidableEq

/-- Python `x or default` for an optional string field: both a missing/null
value and the empty string fall back to the default. -/
def orStr (o : Option String) (d : String) : String :=
  match o with
  | none => d
  | some s => if s = "" then d else s

/-- Little-endian decimal digits, with explicit fuel to make the recursion
structural (the value itself is always enough fuel). -/
def decDigitsAux : Nat → Nat → List Nat
  | 0, _ => []
  | _ + 1, 0 => []
  | fuel + 1, n + 1 => ((n + 1) % 10) :: decDigitsAux fuel ((n + 1) / 10)

/-- Little-endian decimal digits of `n`. -/
def decDigits (n : Nat) : List Nat := decDigitsAux n n

/-- The character of one decimal digit (codepoint 48 is '0'). -/
def dChar (d : Nat) : Char := Char.ofNat (48 + d)

/-- Decimal rendering of a natural number, as Python `str(n)` / `"%d" % n`. -/
def decimal (n : Nat) : String :=
  if n = 0 then "0" else ⟨(decDigits n).reverse.map dChar⟩

/-- Python format spec `04d`: left-pad the decimal form with zeros to
width 4 (numbers with more digits are printed in full). -/
def pad4 (n : Nat) : String :=
  ⟨List.replicate (4 - (decimal n).data.length) '0' ++ (decimal n).data⟩

/-- The invoice-number format `f"INV-{y}-{seq:04d}"`. -/
def mkInvNo (y seq : Nat) : String :=
  "INV-" ++ decimal y ++ "-" ++ pad4 seq

/-- `SELECT COUNT(*) FROM invoices WHERE year=?`. -/
def yearCount (db : DB) (y : Nat) : Nat :=
  (db.invoices.filter (fun inv => inv.year = y)).length

/-- `next_invoice_no` (app.py): sequence = count of invoices stored for the
current year plus one; `y` stands for `datetime.now().year`. -/
def next_invoice_no (db : DB) (y : Nat) : String × Nat :=
  let cnt := yearCount db y
  let seq := cnt + 1
  (mkInvNo y seq, y)

/-- `SELECT qty, name FROM products WHERE id=?` + `fetchone()`. -/
def findProduct (ps : List Product) (pid : Int) : Option Product :=
  ps.find? (fun p => p.id = pid)

/-- `UPDATE products SET qty = qty + d WHERE id=?` (with `d` negative for the
decrement form used at insert time). -/
def bump (ps : List Product) (pid : Int) (d : Int) : List Product :=
  ps.map (fun p => if p.id = pid then { p with qty := p.qty + d } else p)

/-- The error message built by both stock checks:
`f"Insufficient stock for {name} (have {avail}, need {need})"`. -/
def stockMsg (name : String) (avail need : Int) : String :=
  "Insufficient stock for " ++ name ++ " (have " ++ toString avail ++
    ", need " ++ toString need ++ ")"

/-- The pre-flight stock check loop shared by create and update: for every
item with a truthy product_id, look the product up and fail with the first
insufficiency found (`if prod and prod["qty"] < qty`). -/
def stockCheck (ps : List Product) : List ReqItem → Option String
  | [] => none
  | it :: rest =>
    let pid := it.product_id.getD 0
    let qty := it.qty.getD 0
    if pid ≠ 0 then
      match findProduct ps pid with
      | some prod =>
        if prod.qty < qty then some (stockMsg prod.name prod.qty qty)
        else stockCheck ps rest
      | none => stockCheck ps rest
    else stockCheck ps rest

/-- The `invoice_items` row inserted for one request item
(`INSERT INTO invoice_items (...) VALUES (...)`). -/
def ReqItem.toRow (it : ReqItem) (invoice_id : Nat) : InvoiceItem :=
  { invoice_id := invoice_id
    product_id := it.product_id.getD 0
    item := orStr it.item ""
    qty := it.qty.getD 0
    price := it.price.getD 0
    discount := it.discount.getD 0
    tax := it.tax.getD 0
    amount := it.amount.getD 0 }

/-- The insert loop shared by create and update: append each item row and,
when the item has a truthy product_id, decrement that product's stock
(`UPDATE products SET qty = qty - ? WHERE id=?`). -/
def insertItems (invoice_id : Nat) (st : List InvoiceItem × List Product) :
    List ReqItem → List InvoiceItem × List Product
  | [] => st
  | it :: rest =>
    let pid := it.product_id.getD 0
    let qty := it.qty.getD 0
    let rows := st.1 ++ [it.toRow invoice_id]
    let ps := if pid ≠ 0 then bump st.2 pid (-qty) else st.2
    insertItems invoice_id (rows, ps) rest

/-- The stock-restore loop of update and delete: credit each old item's qty
back to its product (`if oi["product_id"]: UPDATE products SET qty = qty + ?`). -/
def creditOld (ps : List Product) : List InvoiceItem → List Product
  | [] => ps
  | oi :: rest =>
    creditOld (if oi.product_id ≠ 0 then bump ps oi.product_id oi.qty else ps) rest

/-- Response of `api_invoice_save`: either HTTP 200 with the new id and
invoice number, or HTTP 400 with the insufficiency message. -/
inductive SaveResult
  | ok (id : Nat) (invoice_no : String)
  | insufficient (msg : String)
  deriving DecidableEq

/-- Response of `api_invoice_update`: either HTTP 200 success or HTTP 400
with the insufficiency message (there is no 404 path in the source). -/
inductive UpdateResult
  | ok
  | insufficient (msg : String)
  deriving DecidableEq

/-- `api_invoice_save` (app.py lines 212-267).  `y` stands for
`datetime.now().year` and `today` for `datetime.now().strftime("%Y-%m-%d")`.
The stock check runs before any INSERT, so the 400 branch leaves the state
untouched; the success branch inserts the header, then the item rows with
their stock decrements, and commits. -/
def api_invoice_save (db : DB) (y : Nat) (today : String) (req : SaveReq) :
    SaveResult × DB :=
  let customer_name := orStr req.customer ""
  let customer_phone := orStr req.phone ""
  let inv_date := orStr req.date today
  let total := req.total.getD 0
  let items := req.items.getD []
  let invoice_no := (next_invoice_no db y).1
  match stockCheck db.products items with
  | some msg => (SaveResult.insufficient msg, db)
  | none =>
    let invoice_id := db.next_invoice_id
    let newInv : Invoice :=
      { id := invoice_id, invoice_no := invoice_no, year := y,
        customer_id := req.customer_id, customer_name := customer_name,
        customer_phone := customer_phone, date := inv_date, total := total }
    let ins := insertItems invoice_id (db.invoice_items, db.products) items
    (SaveResult.ok invoice_id invoice_no,
     { db with invoices := db.invoices ++ [newInv],
               invoice_items := ins.1, products := ins.2,
               next_invoice_id := invoice_id + 1 })

/-- `api_invoice_update` (app.py lines 273-340): credit the old items back,
delete them, validate the new items against the credited stock, and on
failure `db.rollback()` (state unchanged); on success insert the new rows
with their decrements and rewrite the header fields
(`UPDATE invoices SET customer_name=?, customer_phone=?, date=?, total=?`). -/
def api_invoice_update (db : DB) (inv_id : Nat) (today : String)
    (req : UpdateReq) : UpdateResult × DB :=
  let customer_name := orStr req.customer ""
  let customer_phone := orStr req.phone ""
  let inv_date := orStr req.date today
  let total := req.total.getD 0
  let items := req.items.getD []
  let old_items := db.invoice_items.filter (fun r => r.invoice_id = inv_id)
  let ps1 := creditOld db.products old_items
  let rows1 := db.invoice_items.filter (fun r => r.invoice_id ≠ inv_id)
  match stockCheck ps1 items with
  | some msg => (UpdateResult.insufficient msg, db)
  | none =>
    let ins := insertItems inv_id (rows1, ps1) items
    (UpdateResult.ok,
     { db with products := ins.2, invoice_items := ins.1,
               invoices := db.invoices.map (fun inv =>
                 if inv.id = inv_id then
                   { inv with customer_name := customer_name,
                              customer_phone := customer_phone,
                              date := inv_date, total := total }
                 else inv) })

/-- `api_invoice_delete` (app.py lines 346-367): credit every item of the
invoice back to its product, delete the item rows, delete the header; the
route unconditionally responds success, so only the state is modelled. -/
def api_invoice_delete (db : DB) (inv_id : Nat) : DB :=
  let rows := db.invoice_items.filter (fun r => r.invoice_id = inv_id)
  let ps := creditOld db.products rows
  { db with products := ps,
            invoice_items := db.invoice_items.filter (fun r => r.invoice_id ≠ inv_id),
            invoices := db.invoices.filter (fun inv => inv.id ≠ inv_id) }

/-- One invoice operation, for reasoning about request sequences. -/
inductive Op
  | save (y : Nat) (today : String) (req : SaveReq)
  | update (inv_id : Nat) (today : String) (req : UpdateReq)
  | delete (inv_id : Nat)

/-- Apply one operation, dropping the HTTP response. -/
def runOp (db : DB) : Op → DB
  | Op.save y today req => (api_invoice_save db y today req).2
  | Op.update inv_id today req => (api_invoice_update db inv_id today req).2
  | Op.delete inv_id => api_invoice_delete db inv_id

/-- Apply a sequence of operations in order. -/
def runOps (db : DB) : List Op → DB
  | [] => db
  | op :: rest => runOps (runOp db op) rest

/-- Sum of the `qty` column over the stored item rows whose `product_id`
equals `i`. -/
def itemsSum (rows : List InvoiceItem) (i : Int) : Int :=
  ((rows.filter (fun r => r.product_id = i)).map (fun r => r.qty)).sum

/-- Sum of the requested quantities over the items of a request whose
(coerced) product_id equals `i`. -/
def reqSum (its : List ReqItem) (i : Int) : Int :=
  ((its.filter (fun it => it.product_id.getD 0 = i)).map (fun it => it.qty.getD 0)).sum

/-- The invoice numbers handed out by a sequence of create requests (each
paired with its request date), in order; failed creates assign none. -/
def assignedNos (y : Nat) (db : DB) : List (String × SaveReq) → List String
  | [] => []
  | (t, req) :: rest =>
    match api_invoice_save db y t req with
    | (SaveResult.ok _ no, db') => no :: assignedNos y db' rest
    | (SaveResult.insufficient _, db') => assignedNos y db' rest

/-- Leading zeros of a decimal rendering. -/
def stripZeros (l : List Char) : List Char := l.dropWhile (fun c => c = '0')

/-! ### Concrete states and requests used as counterexamples and witnesses -/

/-- A product with 10 units on hand. -/
def c1Product : Product := ⟨1, "Widget", 10, 0, "", 0, 0⟩

/-- Fresh database holding only `c1Product`. -/
def c1DB : DB := ⟨[c1Product], [], [], 1⟩

/-- A line item requesting 6 units of product 1. -/
def c1Item : ReqItem := ⟨some 1, some "Widget", some 6, none, none, none, none⟩

/-- A create request whose two line items both reference product 1: each asks
for 6 of the 10 on hand, so together they exceed stock. -/
def c1BadReq : SaveReq := ⟨none, none, none, none, none, some [c1Item, c1Item]⟩

/-- A create request with a single line item for product 1. -/
def c1GoodReq : SaveReq := ⟨none, none, none, none, none, some [c1Item]⟩

/-- An item-free create request. -/
def c2Req : SaveReq := ⟨none, none, none, none, none, none⟩

/-- An empty database. -/
def c2DB : DB := ⟨[], [], [], 1⟩

/-- Create two invoices in 2024, delete the first, create a third. -/
def c2Ops : List Op :=
  [Op.save 2024 "2024-01-01" c2Req, Op.save 2024 "2024-01-02" c2Req,
   Op.delete 1, Op.save 2024 "2024-01-03" c2Req]

/-- Database with one product with 10 units (the worked example of the spec). -/
def c3DB : DB := ⟨[⟨1, "Widget", 10, 0, "", 0, 0⟩], [], [], 1⟩

/-- Create an invoice taking 4 units, update it to take 9, then delete it. -/
def c3Ops : List Op :=
  [Op.save 2024 "2024-01-01"
     ⟨none, none, none, none, none,
      some [⟨some 1, some "Widget", some 4, none, none, none, none⟩]⟩,
   Op.update 1 "2024-01-02"
     ⟨none, none, none, none,
      some [⟨some 1, some "Widget", some 9, none, none, none, none⟩]⟩,
   Op.delete 1]

/-- Database with 2 units of product 1 on hand. -/
def c4DB : DB := ⟨[⟨1, "Gadget", 2, 0, "", 0, 0⟩], [], [], 1⟩

/-- A create request asking for 5 units of product 1 when only 2 are on hand. -/
def c4Req : SaveReq :=
  ⟨none, none, none, none, none,
   some [⟨some 1, some "Gadget", some 5, none, none, none, none⟩]⟩

/-- Database with invoice 1 holding 2 units of product 1, and 0 units left. -/
def c5DB : DB :=
  ⟨[⟨1, "Widget", 0, 0, "", 0, 0⟩],
   [⟨1, "INV-2024-0001", 2024, none, "", "", "2024-01-01", 0⟩],
   [⟨1, 1, "Widget", 2, 0, 0, 0, 0⟩], 2⟩

/-- An update of invoice 1 to 9 units (only 0 + 2 are available after reversal). -/
def c5Req : UpdateReq :=
  ⟨none, none, none, none,
   some [⟨some 1, some "Widget", some 9, none, none, none, none⟩]⟩

/-- Database where product 1 has already been driven to a negative quantity
(-2) while invoice 1 still holds 5 units of it. -/
def c6DB : DB :=
  ⟨[⟨1, "Widget", -2, 0, "", 0, 0⟩],
   [⟨1, "INV-2024-0001", 2024, none, "", "", "2024-01-01", 0⟩],
   [⟨1, 1, "Widget", 5, 0, 0, 0, 0⟩], 2⟩

/-- An update of invoice 1 that reduces its sole item from 5 to 4 units. -/
def c6Req : UpdateReq :=
  ⟨none, none, none, none,
   some [⟨some 1, some "Widget", some 4, none, none, none, none⟩]⟩

/-- Database with 1 unit of product 1 and invoice 1 holding 5 units of it. -/
def c6wDB : DB :=
  ⟨[⟨1, "Widget", 1, 0, "", 0, 0⟩],
   [⟨1, "INV-2024-0001", 2024, none, "", "", "2024-01-01", 0⟩],
   [⟨1, 1, "Widget", 5, 0, 0, 0, 0⟩], 2⟩

/-- Database with one invoice whose two items cover products 1 and 2. -/
def c7DB : DB :=
  ⟨[⟨1, "Widget", 3, 0, "", 0, 0⟩, ⟨2, "Gadget", 4, 0, "", 0, 0⟩],
   [⟨1, "INV-2024-0001", 2024, none, "", "", "2024-01-01", 0⟩],
   [⟨1, 1, "Widget", 2, 0, 0, 0, 0⟩, ⟨1, 2, "Gadget", 1, 0, 0, 0, 0⟩], 2⟩

/-- A free (product-less) line item: no stock effect. -/
def c8FreeItem : ReqItem := ⟨none, some "Delivery fee", some 3, none, none, none, none⟩

/-- A regular line item for product 1. -/
def c8RegItem : ReqItem := ⟨some 1, some "Widget", some 2, none, none, none, none⟩

/-- Database with 10 units of product 1 and an existing invoice 1. -/
def c8DB : DB :=
  ⟨[⟨1, "Widget", 10, 0, "", 0, 0⟩],
   [⟨1, "INV-2024-0001", 2024, none, "", "", "2024-01-01", 0⟩],
   [⟨1, 1, "Widget", 1, 0, 0, 0, 0⟩], 2⟩

/-- A create request mixing a regular item and a free line. -/
def c8SaveReq : SaveReq :=
  ⟨none, none, none, none, none, some [c8RegItem, c8FreeItem]⟩

/-- An update request mixing a regular item and a free line. -/
def c8UpdReq : UpdateReq :=
  ⟨none, none, none, none, some [c8RegItem, c8FreeItem]⟩

/-- A line item whose product_id 77 matches no product row. -/
def c9DanglingItem : ReqItem :=
  ⟨some 77, some "Ghost", some 50, none, none, none, none⟩

/-- A create request containing a regular item and the dangling item. -/
def c9SaveReq : SaveReq :=
  ⟨none, none, none, none, none, some [c8RegItem, c9DanglingItem]⟩

/-- An update request containing a regular item and the dangling item. -/
def c9UpdReq : UpdateReq :=
  ⟨none, none, none, none, some [c8RegItem, c9DanglingItem]⟩

/-- Database with no invoices at all and 0 units of product 1. -/
def c10DB : DB := ⟨[⟨1, "Widget", 0, 0, "", 0, 0⟩], [], [], 1⟩

/-- An update request for 5 units of product 1. -/
def c10Req : UpdateReq :=
  ⟨none, none, none, none,
   some [⟨some 1, some "Widget", some 5, none, none, none, none⟩]⟩

/-- Database with 3 units of product 1 and no invoice with id 9. -/
def c10wDB : DB :=
  ⟨[⟨1, "Widget", 3, 0, "", 0, 0⟩],
   [⟨1, "INV-2024-0001", 2024, none, "", "", "2024-01-01", 0⟩], [], 2⟩

/-- An update request for 2 units of product 1. -/
def c10wReq : UpdateReq :=
  ⟨none, none, none, none,
   some [⟨some 1, some "Widget", some 2, none, none, none, none⟩]⟩

/-! ### Basic accounting lemmas -/

theorem itemsSum_nil (i : Int) : itemsSum [] i = 0 := rfl

theorem itemsSum_cons (r : InvoiceItem) (rows : List InvoiceItem) (i : Int) :
    itemsSum (r :: rows) i =
      (if r.product_id = i then r.qty else 0) + itemsSum rows i := by
  by_cases h : r.product_id = i <;> simp [itemsSum, List.filter_cons, h]

theorem itemsSum_append (l₁ l₂ : List InvoiceItem) (i : Int) :
    itemsSum (l₁ ++ l₂) i = itemsSum l₁ i + itemsSum l₂ i := by
  simp [itemsSum, List.filter_append]

theorem reqSum_nil (i : Int) : reqSum [] i = 0 := rfl

theorem reqSum_cons (it : ReqItem) (its : List ReqItem) (i : Int) :
    reqSum (it :: its) i =
      (if it.product_id.getD 0 = i then it.qty.getD 0 else 0) + reqSum its i := by
  by_cases h : it.product_id.getD 0 = i <;> simp [reqSum, List.filter_cons, h]

theorem toRow_product_id (it : ReqItem) (v : Nat) :
    (it.toRow v).product_id = it.product_id.getD 0 := rfl

theorem toRow_qty (it : ReqItem) (v : Nat) : (it.toRow v).qty = it.qty.getD 0 := rfl

theorem toRow_invoice_id (it : ReqItem) (v : Nat) : (it.toRow v).invoice_id = v := rfl

theorem itemsSum_map_toRow (v : Nat) (its : List ReqItem) (i : Int) :
    itemsSum (its.map (fun it => it.toRow v)) i = reqSum its i := by
  induction its with
  | nil => rfl
  | cons it rest ih =>
    rw [List.map_cons, itemsSum_cons, reqSum_cons, toRow_product_id, toRow_qty, ih]

theorem itemsSum_filter_partition (rows : List InvoiceItem) (v : Nat) (i : Int) :
    itemsSum rows i =
      itemsSum (rows.filter (fun r => r.invoice_id = v)) i +
        itemsSum (rows.filter (fun r => r.invoice_id ≠ v)) i := by
  induction rows with
  | nil => rfl
  | cons r rest ih =>
    by_cases h : r.invoice_id = v <;>
      simp [List.filter_cons, h, itemsSum_cons, ih] <;> omega

/-! ### The net effect of the credit and debit loops on the products table -/

theorem credit_step_zero (r : InvoiceItem) (rest : List InvoiceItem) (p : Product)
    (hr : r.product_id = 0) :
    (if p.id = 0 then p else { p with qty := p.qty + itemsSum rest p.id }) =
      (if p.id = 0 then p else { p with qty := p.qty + itemsSum (r :: rest) p.id }) := by
  by_cases hp0 : p.id = 0
  · rw [if_pos hp0, if_pos hp0]
  · rw [if_neg hp0, if_neg hp0, itemsSum_cons,
      if_neg (show ¬ r.product_id = p.id from fun h => hp0 (h ▸ hr)), zero_add]

theorem credit_step (r : InvoiceItem) (rest : List InvoiceItem) (p : Product)
    (hr : r.product_id ≠ 0) :
    (fun q => if q.id = 0 then q else { q with qty := q.qty + itemsSum rest q.id })
        (if p.id = r.product_id then { p with qty := p.qty + r.qty } else p) =
      (if p.id = 0 then p else { p with qty := p.qty + itemsSum (r :: rest) p.id }) := by
  by_cases hpr : p.id = r.product_id
  · rw [if_pos hpr]
    have hp0 : ¬ p.id = 0 := fun h => hr (hpr.symm.trans h)
    show (if p.id = 0 then ({ p with qty := p.qty + r.qty } : Product)
        else { p with qty := p.qty + r.qty + itemsSum rest p.id }) =
      (if p.id = 0 then p else { p with qty := p.qty + itemsSum (r :: rest) p.id })
    rw [if_neg hp0, if_neg hp0, itemsSum_cons, if_pos hpr.symm]
    exact congrArg (fun z => ({ p with qty := z } : Product)) (by omega)
  · rw [if_neg hpr]
    show (if p.id = 0 then p else { p with qty := p.qty + itemsSum rest p.id }) = _
    by_cases hp0 : p.id = 0
    · rw [if_pos hp0, if_pos hp0]
    · rw [if_neg hp0, if_neg hp0, itemsSum_cons,
        if_neg (fun h => hpr h.symm), zero_add]

theorem creditOld_eq_map (rows : List InvoiceItem) (ps : List Product) :
    creditOld ps rows = ps.map (fun p =>
      if p.id = 0 then p else { p with qty := p.qty + itemsSum rows p.id }) := by
  induction rows generalizing ps with
  | nil =>
    rw [show (fun p : Product =>
        if p.id = 0 then p else { p with qty := p.qty + itemsSum [] p.id }) = id from
      funext fun p => by by_cases h : p.id = 0 <;> simp [h, itemsSum_nil]]
    simp [creditOld]
  | cons r rest ih =>
    show creditOld (if r.product_id ≠ 0 then bump ps r.product_id r.qty else ps) rest = _
    by_cases hr : r.product_id = 0
    · rw [if_neg (by simp [hr]), ih ps]
      exact List.map_congr_left fun p _ => credit_step_zero r rest p hr
    · rw [if_pos hr, ih, bump, List.map_map]
      exact List.map_congr_left fun p _ => credit_step r rest p hr

theorem debit_step_zero (it : ReqItem) (rest : List ReqItem) (p : Product)
    (hr : it.product_id.getD 0 = 0) :
    (if p.id = 0 then p else { p with qty := p.qty - reqSum rest p.id }) =
      (if p.id = 0 then p else { p with qty := p.qty - reqSum (it :: rest) p.id }) := by
  by_cases hp0 : p.id = 0
  · rw [if_pos hp0, if_pos hp0]
  · rw [if_neg hp0, if_neg hp0, reqSum_cons,
      if_neg (show ¬ it.product_id.getD 0 = p.id from fun h => hp0 (h ▸ hr)), zero_add]

theorem debit_step (it : ReqItem) (rest : List ReqItem) (p : Product)
    (hr : it.product_id.getD 0 ≠ 0) :
    (fun q => if q.id = 0 then q else { q with qty := q.qty - reqSum rest q.id })
        (if p.id = it.product_id.getD 0 then
          { p with qty := p.qty + -(it.qty.getD 0) } else p) =
      (if p.id = 0 then p else { p with qty := p.qty - reqSum (it :: rest) p.id }) := by
  by_cases hpr : p.id = it.product_id.getD 0
  · rw [if_pos hpr]
    have hp0 : ¬ p.id = 0 := fun h => hr (hpr.symm.trans h)
    show (if p.id = 0 then ({ p with qty := p.qty + -(it.qty.getD 0) } : Product)
        else { p with qty := p.qty + -(it.qty.getD 0) - reqSum rest p.id }) =
      (if p.id = 0 then p else { p with qty := p.qty - reqSum (it :: rest) p.id })
    rw [if_neg hp0, if_neg hp0, reqSum_cons, if_pos hpr.symm]
    exact congrArg (fun z => ({ p with qty := z } : Product)) (by omega)
  · rw [if_neg hpr]
    show (if p.id = 0 then p else { p with qty := p.qty - reqSum rest p.id }) = _
    by_cases hp0 : p.id = 0
    · rw [if_pos hp0, if_pos hp0]
    · rw [if_neg hp0, if_neg hp0, reqSum_cons,
        if_neg (fun h => hpr h.symm), zero_add]

theorem insertItems_eq (v : Nat) (its : List ReqItem) :
    ∀ (rows : List InvoiceItem) (ps : List Product),
    insertItems v (rows, ps) its =
      (rows ++ its.map (fun it => it.toRow v),
       ps.map (fun p =>
         if p.id = 0 then p else { p with qty := p.qty - reqSum its p.id })) := by
  induction its with
  | nil =>
    intro rows ps
    rw [show (fun p : Product =>
        if p.id = 0 then p else { p with qty := p.qty - reqSum [] p.id }) = id from
      funext fun p => by by_cases h : p.id = 0 <;> simp [h, reqSum_nil]]
    simp [insertItems]
  | cons it rest ih =>
    intro rows ps
    show insertItems v
        (rows ++ [it.toRow v],
         if it.product_id.getD 0 ≠ 0 then bump ps (it.product_id.getD 0) (-(it.qty.getD 0))
         else ps) rest = _
    rw [ih]
    refine Prod.ext ?_ ?_
    · simp
    · show (if it.product_id.getD 0 ≠ 0 then _ else ps).map _ = _
      by_cases hr : it.product_id.getD 0 = 0
      · rw [if_neg (by simp [hr])]
        exact List.map_congr_left fun p _ => debit_step_zero it rest p hr
      · rw [if_pos hr, bump, List.map_map]
        exact List.map_congr_left fun p _ => debit_step it rest p hr

/-! ### Lookup lemmas -/

theorem findProduct_map (ps : List Product) (f : Product → Product)
    (hf : ∀ p, (f p).id = p.id) (i : Int) :
    findProduct (ps.map f) i = (findProduct ps i).map f := by
  induction ps with
  | nil => rfl
  | cons p rest ih =>
    by_cases h : p.id = i
    · rw [findProduct, List.map_cons,
        List.find?_cons_of_pos _ (by simpa [hf] using h)]
      rw [findProduct, List.find?_cons_of_pos _ (by simpa using h)]
      rfl
    · rw [findProduct, List.map_cons,
        List.find?_cons_of_neg _ (by simpa [hf] using h)]
      rw [findProduct, List.find?_cons_of_neg _ (by simpa using h)]
      exact ih

theorem findProduct_mem {ps : List Product} {i : Int} {p : Product}
    (h : findProduct ps i = some p) : p ∈ ps ∧ p.id = i := by
  refine ⟨List.mem_of_find?_eq_some h, ?_⟩
  have := List.find?_some h
  simpa using this

theorem findProduct_of_mem {ps : List Product} {p : Product}
    (hnd : (ps.map (fun q => q.id)).Nodup) (hp : p ∈ ps) :
    findProduct ps p.id = some p := by
  cases hq : findProduct ps p.id with
  | none =>
    rw [findProduct, List.find?_eq_none] at hq
    have := hq p hp
    simp at this
  | some q =>
    obtain ⟨hqmem, hqid⟩ := findProduct_mem hq
    rw [List.inj_on_of_nodup_map hnd hqmem hp hqid]

theorem findProduct_eq_none {ps : List Product} {i : Int}
    (h : ∀ p ∈ ps, p.id ≠ i) : findProduct ps i = none := by
  rw [findProduct, List.find?_eq_none]
  intro p hp
  simpa using h p hp

/-! ### The stock-check loop -/

theorem stockCheck_cons_pass (ps : List Product) (it : ReqItem) (rest : List ReqItem)
    (h : ∀ p, it.product_id.getD 0 ≠ 0 →
      findProduct ps (it.product_id.getD 0) = some p → ¬ p.qty < it.qty.getD 0) :
    stockCheck ps (it :: rest) = stockCheck ps rest := by
  rw [stockCheck]
  by_cases h0 : it.product_id.getD 0 ≠ 0
  · rw [if_pos h0]
    cases hf : findProduct ps (it.product_id.getD 0) with
    | none => rfl
    | some q => simp only [if_neg (h q h0 hf)]
  · rw [if_neg h0]

theorem stockCheck_cons_fail (ps : List Product) (it : ReqItem) (rest : List ReqItem)
    {p : Product} (hpid : it.product_id.getD 0 ≠ 0)
    (hfind : findProduct ps (it.product_id.getD 0) = some p)
    (hlt : p.qty < it.qty.getD 0) :
    stockCheck ps (it :: rest) = some (stockMsg p.name p.qty (it.qty.getD 0)) := by
  rw [stockCheck, if_pos hpid]
  simp only [hfind, if_pos hlt]

theorem stockCheck_none_pass {ps : List Product} :
    ∀ {its : List ReqItem}, stockCheck ps its = none →
    ∀ it ∈ its, ∀ p, it.product_id.getD 0 ≠ 0 →
      findProduct ps (it.product_id.getD 0) = some p → ¬ p.qty < it.qty.getD 0 := by
  intro its
  induction its with
  | nil => intro _ it h; simp at h
  | cons it rest ih =>
    intro h it' hmem p hpid hfind hlt
    rcases List.mem_cons.mp hmem with rfl | hmem'
    · rw [stockCheck_cons_fail ps it' rest hpid hfind hlt] at h
      exact Option.noConfusion h
    · by_cases hfail : ∃ q, it.product_id.getD 0 ≠ 0 ∧
          findProduct ps (it.product_id.getD 0) = some q ∧ q.qty < it.qty.getD 0
      · obtain ⟨q, h0, hf, hq⟩ := hfail
        rw [stockCheck_cons_fail ps it rest h0 hf hq] at h
        exact Option.noConfusion h
      · rw [stockCheck_cons_pass ps it rest
          (fun q h0 hf hq => hfail ⟨q, h0, hf, hq⟩)] at h
        exact ih h it' hmem' p hpid hfind hlt

theorem stockCheck_none_of_pass {ps : List Product} :
    ∀ {its : List ReqItem},
    (∀ it ∈ its, ∀ p, it.product_id.getD 0 ≠ 0 →
      findProduct ps (it.product_id.getD 0) = some p → ¬ p.qty < it.qty.getD 0) →
    stockCheck ps its = none := by
  intro its
  induction its with
  | nil => intro _; rfl
  | cons it rest ih =>
    intro h
    rw [stockCheck_cons_pass ps it rest (h it (List.mem_cons_self it rest))]
    exact ih fun it' hm => h it' (List.mem_cons_of_mem _ hm)

theorem stockCheck_some_of_fail {ps : List Product} :
    ∀ {its : List ReqItem},
    (∃ it ∈ its, it.product_id.getD 0 ≠ 0 ∧
      ∃ p, findProduct ps (it.product_id.getD 0) = some p ∧ p.qty < it.qty.getD 0) →
    ∃ it ∈ its, ∃ p, it.product_id.getD 0 ≠ 0 ∧
      findProduct ps (it.product_id.getD 0) = some p ∧ p.qty < it.qty.getD 0 ∧
      stockCheck ps its = some (stockMsg p.name p.qty (it.qty.getD 0)) := by
  intro its
  induction its with
  | nil => rintro ⟨it, hmem, -⟩; simp at hmem
  | cons it rest ih =>
    rintro ⟨it', hmem', hpid', p', hfind', hlt'⟩
    by_cases hfail : it.product_id.getD 0 ≠ 0 ∧
        ∃ p, findProduct ps (it.product_id.getD 0) = some p ∧ p.qty < it.qty.getD 0
    · obtain ⟨hpid, p, hfind, hlt⟩ := hfail
      exact ⟨it, List.mem_cons_self it rest, p, hpid, hfind, hlt,
        stockCheck_cons_fail ps it rest hpid hfind hlt⟩
    · have hmemr : it' ∈ rest := by
        rcases List.mem_cons.mp hmem' with rfl | hr
        · exact absurd ⟨hpid', p', hfind', hlt'⟩ hfail
        · exact hr
      obtain ⟨it₀, hm₀, p₀, hpid₀, hfind₀, hlt₀, hsc⟩ :=
        ih ⟨it', hmemr, hpid', p', hfind', hlt'⟩
      refine ⟨it₀, List.mem_cons_of_mem _ hm₀, p₀, hpid₀, hfind₀, hlt₀, ?_⟩
      rw [stockCheck_cons_pass ps it rest
        (fun q h0 hf hq => hfail ⟨h0, q, hf, hq⟩)]
      exact hsc

/-! ### Endpoint-level characterizations -/

theorem credit_debit_comp (old : List InvoiceItem) (its : List ReqItem) (p : Product) :
    (fun q => if q.id = 0 then q else { q with qty := q.qty - reqSum its q.id })
      ((fun q => if q.id = 0 then q else { q with qty := q.qty + itemsSum old q.id }) p) =
    (if p.id = 0 then p
     else { p with qty := p.qty + itemsSum old p.id - reqSum its p.id }) := by
  by_cases hp0 : p.id = 0 <;> simp [hp0]

theorem save_insufficient_eq {db : DB} {y : Nat} {today : String} {req : SaveReq}
    {msg : String} (h : stockCheck db.products (req.items.getD []) = some msg) :
    api_invoice_save db y today req = (SaveResult.insufficient msg, db) := by
  simp only [api_invoice_save, h]

theorem save_ok_result {db : DB} {y : Nat} {today : String} {req : SaveReq}
    (h : stockCheck db.products (req.items.getD []) = none) :
    (api_invoice_save db y today req).1 =
      SaveResult.ok db.next_invoice_id (mkInvNo y (yearCount db y + 1)) := by
  simp only [api_invoice_save, h, next_invoice_no]

theorem save_ok_products {db : DB} {y : Nat} {today : String} {req : SaveReq}
    (h : stockCheck db.products (req.items.getD []) = none) :
    (api_invoice_save db y today req).2.products =
      db.products.map (fun p =>
        if p.id = 0 then p
        else { p with qty := p.qty - reqSum (req.items.getD []) p.id }) := by
  simp only [api_invoice_save, h, insertItems_eq]

theorem save_ok_items {db : DB} {y : Nat} {today : String} {req : SaveReq}
    (h : stockCheck db.products (req.items.getD []) = none) :
    (api_invoice_save db y today req).2.invoice_items =
      db.invoice_items ++
        (req.items.getD []).map (fun it => it.toRow db.next_invoice_id) := by
  simp only [api_invoice_save, h, insertItems_eq]

theorem save_ok_invoices {db : DB} {y : Nat} {today : String} {req : SaveReq}
    (h : stockCheck db.products (req.items.getD []) = none) :
    ∃ inv : Invoice, inv.year = y ∧
      (api_invoice_save db y today req).2.invoices = db.invoices ++ [inv] := by
  refine ⟨Invoice.mk db.next_invoice_id (mkInvNo y (yearCount db y + 1)) y
    req.customer_id (orStr req.customer "") (orStr req.phone "")
    (orStr req.date today) (req.total.getD 0), rfl, ?_⟩
  simp only [api_invoice_save, h, next_invoice_no]

theorem save_db_cases (db : DB) (y : Nat) (today : String) (req : SaveReq) :
    (api_invoice_save db y today req).2 = db ∨
      stockCheck db.products (req.items.getD []) = none := by
  cases h : stockCheck db.products (req.items.getD []) with
  | none => exact Or.inr rfl
  | some msg => exact Or.inl (by rw [save_insufficient_eq h])

theorem update_insufficient_eq {db : DB} {inv_id : Nat} {today : String}
    {req : UpdateReq} {msg : String}
    (h : stockCheck
        (creditOld db.products (db.invoice_items.filter (fun r => r.invoice_id = inv_id)))
        (req.items.getD []) = some msg) :
    api_invoice_update db inv_id today req = (UpdateResult.insufficient msg, db) := by
  simp only [api_invoice_update, h]

theorem update_ok_result {db : DB} {inv_id : Nat} {today : String} {req : UpdateReq}
    (h : stockCheck
        (creditOld db.products (db.invoice_items.filter (fun r => r.invoice_id = inv_id)))
        (req.items.getD []) = none) :
    (api_invoice_update db inv_id today req).1 = UpdateResult.ok := by
  simp only [api_invoice_update, h]

theorem update_ok_products {db : DB} {inv_id : Nat} {today : String} {req : UpdateReq}
    (h : stockCheck
        (creditOld db.products (db.invoice_items.filter (fun r => r.invoice_id = inv_id)))
        (req.items.getD []) = none) :
    (api_invoice_update db inv_id today req).2.products =
      db.products.map (fun p =>
        if p.id = 0 then p
        else { p with qty := (p.qty +
            itemsSum (db.invoice_items.filter (fun r => r.invoice_id = inv_id)) p.id -
            reqSum (req.items.getD []) p.id) }) := by
  simp only [api_invoice_update, h, insertItems_eq]
  rw [creditOld_eq_map, List.map_map]
  exact List.map_congr_left fun p _ =>
    credit_debit_comp (db.invoice_items.filter (fun r => r.invoice_id = inv_id))
      (req.items.getD []) p

theorem update_ok_items {db : DB} {inv_id : Nat} {today : String} {req : UpdateReq}
    (h : stockCheck
        (creditOld db.products (db.invoice_items.filter (fun r => r.invoice_id = inv_id)))
        (req.items.getD []) = none) :
    (api_invoice_update db inv_id today req).2.invoice_items =
      db.invoice_items.filter (fun r => r.invoice_id ≠ inv_id) ++
        (req.items.getD []).map (fun it => it.toRow inv_id) := by
  simp only [api_invoice_update, h, insertItems_eq]

theorem update_ok_invoices {db : DB} {inv_id : Nat} {today : String} {req : UpdateReq}
    (h : stockCheck
        (creditOld db.products (db.invoice_items.filter (fun r => r.invoice_id = inv_id)))
        (req.items.getD []) = none) :
    (api_invoice_update db inv_id today req).2.invoices =
      db.invoices.map (fun inv =>
        if inv.id = inv_id then
          { inv with customer_name := orStr req.customer "",
                     customer_phone := orStr req.phone "",
                     date := orStr req.date today, total := req.total.getD 0 }
        else inv) := by
  simp only [api_invoice_update, h]

theorem delete_eq (db : DB) (inv_id : Nat) :
    api_invoice_delete db inv_id =
      { db with
        products := db.products.map (fun p =>
          if p.id = 0 then p
          else { p with qty := (p.qty +
              itemsSum (db.invoice_items.filter (fun r => r.invoice_id = inv_id)) p.id) }),
        invoice_items := db.invoice_items.filter (fun r => r.invoice_id ≠ inv_id),
        invoices := db.invoices.filter (fun inv => inv.id ≠ inv_id) } := by
  simp only [api_invoice_delete, creditOld_eq_map]

/-! ### Decimal rendering: agreement with Nat.digits and injectivity -/

theorem decDigitsAux_eq (fuel : Nat) :
    ∀ n, n ≤ fuel → decDigitsAux fuel n = Nat.digits 10 n := by
  induction fuel with
  | zero =>
    intro n hn
    have : n = 0 := Nat.le_zero.mp hn
    subst this
    simp [decDigitsAux]
  | succ fuel ih =>
    intro n hn
    match n with
    | 0 => simp [decDigitsAux]
    | n + 1 =>
      rw [show decDigitsAux (fuel + 1) (n + 1) =
        ((n + 1) % 10) :: decDigitsAux fuel ((n + 1) / 10) from rfl]
      rw [ih ((n + 1) / 10) (by omega)]
      rw [Nat.digits_def' (by norm_num : (1 : Nat) < 10) (Nat.succ_pos n)]

theorem decDigits_eq (n : Nat) : decDigits n = Nat.digits 10 n :=
  decDigitsAux_eq n n le_rfl

theorem decimal_data_of_ne {n : Nat} (hn : n ≠ 0) :
    (decimal n).data = (Nat.digits 10 n).reverse.map dChar := by
  rw [decimal, if_neg hn, decDigits_eq]

theorem dChar_inj {a b : Nat} (ha : a < 10) (hb : b < 10) (h : dChar a = dChar b) :
    a = b := by
  interval_cases a <;> interval_cases b <;> first | rfl | (exact absurd h (by decide))

theorem dChar_ne_zeroChar {d : Nat} (hd : d < 10) (h0 : d ≠ 0) : dChar d ≠ '0' := by
  interval_cases d
  · exact absurd rfl h0
  all_goals decide

theorem map_dChar_inj : ∀ (l₁ l₂ : List Nat), (∀ d ∈ l₁, d < 10) →
    (∀ d ∈ l₂, d < 10) → l₁.map dChar = l₂.map dChar → l₁ = l₂
  | [], [], _, _, _ => rfl
  | [], _ :: _, _, _, h => by simp at h
  | _ :: _, [], _, _, h => by simp at h
  | a :: l₁, b :: l₂, h₁, h₂, h => by
    rw [List.map_cons, List.map_cons] at h
    obtain ⟨hab, hl⟩ := List.cons.injEq _ _ _ _ ▸ h
    rw [dChar_inj (h₁ a (List.mem_cons_self a l₁)) (h₂ b (List.mem_cons_self b l₂)) hab,
      map_dChar_inj l₁ l₂ (fun d hd => h₁ d (List.mem_cons_of_mem _ hd))
        (fun d hd => h₂ d (List.mem_cons_of_mem _ hd)) hl]

theorem decimal_head_ne_zero {n : Nat} (hn : n ≠ 0) :
    ∃ c l, (decimal n).data = c :: l ∧ c ≠ '0' := by
  have hne : Nat.digits 10 n ≠ [] := Nat.digits_ne_nil_iff_ne_zero.mpr hn
  cases hrev : (Nat.digits 10 n).reverse with
  | nil => exact absurd (List.reverse_eq_nil_iff.mp hrev) hne
  | cons d ds =>
    refine ⟨dChar d, ds.map dChar, ?_, ?_⟩
    · rw [decimal_data_of_ne hn, hrev, List.map_cons]
    · have hmem : d ∈ Nat.digits 10 n := List.mem_reverse.mp (hrev ▸ List.mem_cons_self d ds)
      have hd10 : d < 10 := Nat.digits_lt_base (by norm_num) hmem
      have hddig : Nat.digits 10 n = ds.reverse ++ [d] := by
        rw [← List.reverse_reverse (Nat.digits 10 n), hrev, List.reverse_cons]
      have hd0 : d ≠ 0 := by
        intro hdz
        apply Nat.getLast_digit_ne_zero 10 hn
        have h1 : (Nat.digits 10 n).getLast? =
            some ((Nat.digits 10 n).getLast hne) := List.getLast?_eq_getLast _ hne
        have h2 : (Nat.digits 10 n).getLast? = some d := by
          rw [hddig]; exact List.getLast?_concat _
        have h3 := Option.some.inj (h1.symm.trans h2)
        rw [h3, hdz]
      exact dChar_ne_zeroChar hd10 hd0

theorem decimal_inj {m n : Nat} (h : decimal m = decimal n) : m = n := by
  by_cases hm : m = 0 <;> by_cases hn : n = 0
  · rw [hm, hn]
  · rw [hm] at h
    obtain ⟨c, l, hcl, hc⟩ := decimal_head_ne_zero hn
    have hd := congrArg String.data h
    rw [hcl] at hd
    simp [decimal] at hd
    exact absurd hd.1.symm hc
  · rw [hn] at h
    obtain ⟨c, l, hcl, hc⟩ := decimal_head_ne_zero hm
    have hd := congrArg String.data h
    rw [hcl] at hd
    simp [decimal] at hd
    exact absurd hd.1 hc
  · have hd := congrArg String.data h
    rw [decimal_data_of_ne hm, decimal_data_of_ne hn] at hd
    have hm10 : ∀ d ∈ (Nat.digits 10 m).reverse, d < 10 := fun d hd =>
      Nat.digits_lt_base (by norm_num) (List.mem_reverse.mp hd)
    have hn10 : ∀ d ∈ (Nat.digits 10 n).reverse, d < 10 := fun d hd =>
      Nat.digits_lt_base (by norm_num) (List.mem_reverse.mp hd)
    have := map_dChar_inj _ _ hm10 hn10 hd
    have := List.reverse_injective this
    exact Nat.digits_inj_iff.mp this

theorem stripZeros_replicate_append (k : Nat) (l : List Char) :
    stripZeros (List.replicate k '0' ++ l) = stripZeros l := by
  induction k with
  | zero => rfl
  | succ k _ => simp [stripZeros, List.replicate_succ]

theorem stripZeros_of_head_ne {c : Char} (l : List Char) (hc : c ≠ '0') :
    stripZeros (c :: l) = c :: l := by
  simp [stripZeros, List.dropWhile_cons, hc]

theorem string_data_inj {s t : String} (h : s.data = t.data) : s = t := by
  cases s; cases t; exact congrArg String.mk h

theorem pad4_data (n : Nat) :
    (pad4 n).data = List.replicate (4 - (decimal n).data.length) '0' ++ (decimal n).data :=
  rfl

theorem stripZeros_pad4 {n : Nat} (hn : n ≠ 0) :
    stripZeros ((pad4 n).data) = (decimal n).data := by
  obtain ⟨c, l, hcl, hc⟩ := decimal_head_ne_zero hn
  rw [pad4_data, stripZeros_replicate_append, hcl, stripZeros_of_head_ne l hc]

theorem pad4_zero_data : (pad4 0).data = ['0', '0', '0', '0'] := rfl

theorem pad4_inj {m n : Nat} (h : pad4 m = pad4 n) : m = n := by
  have hd := congrArg String.data h
  by_cases hm : m = 0 <;> by_cases hn : n = 0
  · rw [hm, hn]
  · rw [hm] at hd
    have := congrArg stripZeros hd
    rw [stripZeros_pad4 hn] at this
    obtain ⟨c, l, hcl, hc⟩ := decimal_head_ne_zero hn
    rw [hcl, pad4_zero_data] at this
    simp [stripZeros] at this
  · rw [hn] at hd
    have := congrArg stripZeros hd
    rw [stripZeros_pad4 hm] at this
    obtain ⟨c, l, hcl, hc⟩ := decimal_head_ne_zero hm
    rw [hcl, pad4_zero_data] at this
    simp [stripZeros] at this
  · have := congrArg stripZeros hd
    rw [stripZeros_pad4 hm, stripZeros_pad4 hn] at this
    exact decimal_inj (string_data_inj this)

theorem string_append_data (s t : String) : (s ++ t).data = s.data ++ t.data := rfl

theorem mkInvNo_inj (y : Nat) {s₁ s₂ : Nat} (h : mkInvNo y s₁ = mkInvNo y s₂) :
    s₁ = s₂ := by
  have hd := congrArg String.data h
  rw [mkInvNo, mkInvNo, string_append_data, string_append_data,
    string_append_data, string_append_data, string_append_data, string_append_data] at hd
  exact pad4_inj (string_data_inj (List.append_cancel_left hd))

/-! ### Invoice numbering across create sequences -/

theorem save_ok_yearCount {db : DB} {y : Nat} {today : String} {req : SaveReq}
    (h : stockCheck db.products (req.items.getD []) = none) :
    yearCount (api_invoice_save db y today req).2 y = yearCount db y + 1 := by
  obtain ⟨inv, hy, hinvs⟩ := save_ok_invoices h
  rw [yearCount, hinvs, List.filter_append]
  simp [yearCount, hy]

theorem save_ok_stockCheck {db : DB} {y : Nat} {today : String} {req : SaveReq}
    {i : Nat} {no : String}
    (h : (api_invoice_save db y today req).1 = SaveResult.ok i no) :
    stockCheck db.products (req.items.getD []) = none := by
  cases hs : stockCheck db.products (req.items.getD []) with
  | none => rfl
  | some m =>
    rw [save_insufficient_eq hs] at h
    exact SaveResult.noConfusion h

theorem update_ok_stockCheck {db : DB} {inv_id : Nat} {today : String} {req : UpdateReq}
    (h : (api_invoice_update db inv_id today req).1 = UpdateResult.ok) :
    stockCheck
      (creditOld db.products (db.invoice_items.filter (fun r => r.invoice_id = inv_id)))
      (req.items.getD []) = none := by
  cases hs : stockCheck
      (creditOld db.products (db.invoice_items.filter (fun r => r.invoice_id = inv_id)))
      (req.items.getD []) with
  | none => rfl
  | some m =>
    rw [update_insufficient_eq hs] at h
    exact UpdateResult.noConfusion h

theorem update_db_cases (db : DB) (inv_id : Nat) (today : String) (req : UpdateReq) :
    (api_invoice_update db inv_id today req).2 = db ∨
      stockCheck
        (creditOld db.products (db.invoice_items.filter (fun r => r.invoice_id = inv_id)))
        (req.items.getD []) = none := by
  cases h : stockCheck
      (creditOld db.products (db.invoice_items.filter (fun r => r.invoice_id = inv_id)))
      (req.items.getD []) with
  | none => exact Or.inr rfl
  | some msg => exact Or.inl (by rw [update_insufficient_eq h])

theorem assignedNos_spec (y : Nat) :
    ∀ (reqs : List (String × SaveReq)) (db : DB),
    ∃ seqs : List Nat, assignedNos y db reqs = seqs.map (mkInvNo y) ∧
      seqs.Chain' (· < ·) ∧ ∀ s ∈ seqs, yearCount db y < s := by
  intro reqs
  induction reqs with
  | nil => intro db; exact ⟨[], rfl, List.chain'_nil, by simp⟩
  | cons tr rest ih =>
    intro db
    obtain ⟨t, req⟩ := tr
    cases hs : stockCheck db.products (req.items.getD []) with
    | some msg =>
      obtain ⟨seqs, h1, h2, h3⟩ := ih db
      refine ⟨seqs, ?_, h2, h3⟩
      simp only [assignedNos, @save_insufficient_eq db y t req msg hs]
      exact h1
    | none =>
      cases hsave : api_invoice_save db y t req with
      | mk res db2 =>
        have hres : res = SaveResult.ok db.next_invoice_id (mkInvNo y (yearCount db y + 1)) := by
          have h1 := @save_ok_result db y t req hs
          rw [hsave] at h1
          exact h1
        subst hres
        have hyc : yearCount db2 y = yearCount db y + 1 := by
          have h1 := @save_ok_yearCount db y t req hs
          rw [hsave] at h1
          exact h1
        obtain ⟨seqs, h1, h2, h3⟩ := ih db2
        refine ⟨(yearCount db y + 1) :: seqs, ?_, ?_, ?_⟩
        · simp only [assignedNos, hsave]
          rw [h1, List.map_cons]
        · rw [List.chain'_cons']
          refine ⟨?_, h2⟩
          intro b hb
          have hmem : b ∈ seqs := List.mem_of_mem_head? hb
          have := h3 b hmem
          omega
        · intro s hs'
          rcases List.mem_cons.mp hs' with rfl | hmem
          · omega
          · have := h3 s hmem
            omega

/-! ### The global stock-reconciliation invariant -/

theorem runOp_inv {s0 : DB} (hid : ∀ p ∈ s0.products, p.id ≠ 0) {s : DB} (op : Op)
    (h : s.products = s0.products.map (fun p =>
      { p with qty := p.qty - itemsSum s.invoice_items p.id })) :
    (runOp s op).products = s0.products.map (fun p =>
      { p with qty := p.qty - itemsSum (runOp s op).invoice_items p.id }) := by
  cases op with
  | save y t req =>
    show (api_invoice_save s y t req).2.products = s0.products.map (fun p =>
      { p with qty := p.qty -
          itemsSum (api_invoice_save s y t req).2.invoice_items p.id })
    rcases save_db_cases s y t req with hdb | hok
    · rw [hdb]
      exact h
    · rw [save_ok_products hok, save_ok_items hok, h, List.map_map]
      apply List.map_congr_left
      intro p hp
      have hpid := hid p hp
      simp only [Function.comp_apply]
      rw [if_neg (show ¬ (({ p with
          qty := p.qty - itemsSum s.invoice_items p.id } : Product).id = 0) from hpid)]
      rw [itemsSum_append, itemsSum_map_toRow]
      show ({ p with qty := (p.qty - itemsSum s.invoice_items p.id -
          reqSum (req.items.getD []) p.id) } : Product) = _
      exact congrArg (fun z => ({ p with qty := z } : Product)) (by omega)
  | update inv_id t req =>
    show (api_invoice_update s inv_id t req).2.products = s0.products.map (fun p =>
      { p with qty := p.qty -
          itemsSum (api_invoice_update s inv_id t req).2.invoice_items p.id })
    rcases update_db_cases s inv_id t req with hdb | hok
    · rw [hdb]
      exact h
    · rw [update_ok_products hok, update_ok_items hok, h, List.map_map]
      apply List.map_congr_left
      intro p hp
      have hpid := hid p hp
      simp only [Function.comp_apply]
      rw [if_neg (show ¬ (({ p with
          qty := p.qty - itemsSum s.invoice_items p.id } : Product).id = 0) from hpid)]
      rw [itemsSum_append, itemsSum_map_toRow]
      show ({ p with qty := (p.qty - itemsSum s.invoice_items p.id +
          itemsSum (s.invoice_items.filter (fun r => r.invoice_id = inv_id)) p.id -
          reqSum (req.items.getD []) p.id) } : Product) = _
      have hpart := itemsSum_filter_partition s.invoice_items inv_id p.id
      exact congrArg (fun z => ({ p with qty := z } : Product)) (by omega)
  | delete inv_id =>
    show creditOld s.products
        (s.invoice_items.filter (fun r => r.invoice_id = inv_id)) =
      s0.products.map (fun p =>
        { p with qty := (p.qty - itemsSum
            (s.invoice_items.filter (fun r => r.invoice_id ≠ inv_id)) p.id) })
    rw [creditOld_eq_map, h, List.map_map]
    apply List.map_congr_left
    intro p hp
    have hpid := hid p hp
    simp only [Function.comp_apply]
    rw [if_neg (show ¬ (({ p with
        qty := p.qty - itemsSum s.invoice_items p.id } : Product).id = 0) from hpid)]
    show ({ p with qty := (p.qty - itemsSum s.invoice_items p.id +
        itemsSum (s.invoice_items.filter (fun r => r.invoice_id = inv_id)) p.id) } :
          Product) =
      { p with qty := (p.qty - itemsSum
          (s.invoice_items.filter (fun r => r.invoice_id ≠ inv_id)) p.id) }
    have hpart := itemsSum_filter_partition s.invoice_items inv_id p.id
    exact congrArg (fun z => ({ p with qty := z } : Product)) (by omega)

theorem runOps_inv {s0 : DB} (hid : ∀ p ∈ s0.products, p.id ≠ 0) :
    ∀ (ops : List Op) (s : DB),
    s.products = s0.products.map (fun p =>
      { p with qty := p.qty - itemsSum s.invoice_items p.id }) →
    (runOps s ops).products = s0.products.map (fun p =>
      { p with qty := p.qty - itemsSum (runOps s ops).invoice_items p.id }) := by
  intro ops
  induction ops with
  | nil => intro s h; exact h
  | cons op rest ih =>
    intro s h
    exact ih (runOp s op) (runOp_inv hid op h)

/-! ### Miscellaneous helper lemmas for the claims -/

theorem reqSum_append (l₁ l₂ : List ReqItem) (i : Int) :
    reqSum (l₁ ++ l₂) i = reqSum l₁ i + reqSum l₂ i := by
  simp [reqSum, List.filter_append]

theorem reqSum_middle {it0 : ReqItem} {i : Int} (h : ¬ it0.product_id.getD 0 = i)
    (l1 l2 : List ReqItem) : reqSum (l1 ++ it0 :: l2) i = reqSum (l1 ++ l2) i := by
  rw [reqSum_append, reqSum_append, reqSum_cons, if_neg h, zero_add]

theorem stockCheck_skip {ps : List Product} {it0 : ReqItem}
    (h : ∀ p, it0.product_id.getD 0 ≠ 0 →
      findProduct ps (it0.product_id.getD 0) = some p → ¬ p.qty < it0.qty.getD 0) :
    ∀ (l1 l2 : List ReqItem),
      stockCheck ps (l1 ++ it0 :: l2) = stockCheck ps (l1 ++ l2) := by
  intro l1
  induction l1 with
  | nil => intro l2; exact stockCheck_cons_pass ps it0 l2 h
  | cons a l1 ih =>
    intro l2
    simp only [List.cons_append]
    by_cases hfail : ∃ q, a.product_id.getD 0 ≠ 0 ∧
        findProduct ps (a.product_id.getD 0) = some q ∧ q.qty < a.qty.getD 0
    · obtain ⟨q, h0, hf, hq⟩ := hfail
      rw [stockCheck_cons_fail ps a _ h0 hf hq, stockCheck_cons_fail ps a _ h0 hf hq]
    · rw [stockCheck_cons_pass ps a _ (fun q h0 hf hq => hfail ⟨q, h0, hf, hq⟩),
        stockCheck_cons_pass ps a _ (fun q h0 hf hq => hfail ⟨q, h0, hf, hq⟩), ih l2]

theorem filter_idem {α : Type} (p : α → Bool) (l : List α) :
    (l.filter p).filter p = l.filter p :=
  List.filter_eq_self.mpr fun _ ha => List.of_mem_filter ha

theorem credit_fn_id (rows : List InvoiceItem) (q : Product) :
    ((fun p => if p.id = 0 then p
      else { p with qty := p.qty + itemsSum rows p.id }) q).id = q.id := by
  by_cases h : q.id = 0 <;> simp [h]

theorem debit_fn_id (its : List ReqItem) (q : Product) :
    ((fun p => if p.id = 0 then p
      else { p with qty := p.qty - reqSum its p.id }) q).id = q.id := by
  by_cases h : q.id = 0 <;> simp [h]

theorem forall2_mem_right {α β : Type} {R : α → β → Prop} {l₁ : List α} {l₂ : List β}
    (h : List.Forall₂ R l₁ l₂) {b : β} (hb : b ∈ l₂) : ∃ a ∈ l₁, R a b := by
  induction h with
  | nil => simp at hb
  | cons hR _ ih =>
    rcases List.mem_cons.mp hb with rfl | hb'
    · exact ⟨_, List.mem_cons_self _ _, hR⟩
    · obtain ⟨a, ha, hr⟩ := ih hb'
      exact ⟨a, List.mem_cons_of_mem _ ha, hr⟩

theorem findProduct_none_mem {ps : List Product} {i : Int}
    (h : findProduct ps i = none) : ∀ p ∈ ps, p.id ≠ i := by
  rw [findProduct, List.find?_eq_none] at h
  intro p hp
  have := h p hp
  simpa using this

/-! ## Claim theorems -/

/-- C3: for every sequence of create (api_invoice_save), update
(api_invoice_update) and delete (api_invoice_delete) operations run from a
state with no invoice_items rows (and AUTOINCREMENT-style nonzero product
ids), each product's final qty equals its initial qty minus the sum of qty
over all invoice_items rows currently stored that carry that product's id. -/
theorem c3_stock_reconciliation (s0 : DB) (ops : List Op)
    (h0 : s0.invoice_items = []) (hid : ∀ p ∈ s0.products, p.id ≠ 0) :
    (runOps s0 ops).products = s0.products.map (fun p =>
      { p with qty := p.qty - itemsSum (runOps s0 ops).invoice_items p.id }) := by
  apply runOps_inv hid ops s0
  rw [h0]
  rw [show (fun p : Product => { p with qty := p.qty - itemsSum [] p.id }) = id from
    funext fun p => by simp [itemsSum_nil]]
  rw [List.map_id]

/-- C3 witness: the spec's worked example — product with 10 units, create an
invoice taking 4, update it to 9, delete it. -/
theorem c3_stock_reconciliation_witness :
    (runOps c3DB c3Ops).products = c3DB.products.map (fun p =>
      { p with qty := p.qty - itemsSum (runOps c3DB c3Ops).invoice_items p.id }) :=
  c3_stock_reconciliation c3DB c3Ops rfl (by decide)

/-- C7: deleting the same invoice id twice credits each product exactly once:
the second delete finds no item rows and no header row and leaves the state
(products, invoices, invoice_items, id counter) exactly as after the first
delete — stock is never double-credited. -/
theorem c7_delete_idempotent (db : DB) (inv_id : Nat) :
    api_invoice_delete (api_invoice_delete db inv_id) inv_id =
      api_invoice_delete db inv_id := by
  have hrows : (api_invoice_delete db inv_id).invoice_items.filter
      (fun r => r.invoice_id = inv_id) = [] := by
    apply List.filter_eq_nil_iff.mpr
    intro r hr
    have h1 : (api_invoice_delete db inv_id).invoice_items =
        db.invoice_items.filter (fun r => r.invoice_id ≠ inv_id) := rfl
    rw [h1] at hr
    have := List.of_mem_filter hr
    simpa using this
  refine DB.ext ?_ ?_ ?_ ?_
  · show creditOld (api_invoice_delete db inv_id).products
      ((api_invoice_delete db inv_id).invoice_items.filter
        (fun r => r.invoice_id = inv_id)) =
      (api_invoice_delete db inv_id).products
    rw [hrows]
    rfl
  · show (api_invoice_delete db inv_id).invoices.filter (fun inv => inv.id ≠ inv_id) =
      (api_invoice_delete db inv_id).invoices
    exact filter_idem _ db.invoices
  · show (api_invoice_delete db inv_id).invoice_items.filter
        (fun r => r.invoice_id ≠ inv_id) =
      (api_invoice_delete db inv_id).invoice_items
    exact filter_idem _ db.invoice_items
  · rfl

/-- C2 counterexample: create two invoices in 2024, delete the first, create
again — the fourth operation reuses sequence number 2, so the stored
invoice numbers are not unique (the claim asserts uniqueness even across
deletes). -/
theorem c2_counterexample :
    ((runOps c2DB c2Ops).invoices.map (fun inv => inv.invoice_no)) =
      ["INV-2024-0002", "INV-2024-0002"] ∧
    ¬ ((runOps c2DB c2Ops).invoices.map
        (fun inv => inv.invoice_no)).Pairwise (· ≠ ·) := by
  refine ⟨by decide, fun hpw => ?_⟩
  rw [show ((runOps c2DB c2Ops).invoices.map (fun inv => inv.invoice_no)) =
    ["INV-2024-0002", "INV-2024-0002"] from by decide] at hpw
  exact (List.pairwise_cons.mp hpw).1 _ (List.mem_cons_self _ _) rfl

/-- C2 (amended): within sequences consisting only of create operations (no
deletes), the numbers assigned for one year come from a strictly increasing
sequence of sequence numbers and are pairwise distinct. -/
theorem c2_create_numbers_strictly_increasing (y : Nat) (db : DB)
    (reqs : List (String × SaveReq)) :
    ∃ seqs : List Nat, assignedNos y db reqs = seqs.map (mkInvNo y) ∧
      seqs.Chain' (· < ·) ∧ (assignedNos y db reqs).Pairwise (· ≠ ·) := by
  obtain ⟨seqs, h1, h2, -⟩ := assignedNos_spec y reqs db
  refine ⟨seqs, h1, h2, ?_⟩
  rw [h1]
  have hp : seqs.Pairwise (· < ·) := List.chain'_iff_pairwise.mp h2
  exact hp.map (mkInvNo y)
    (fun a b hab heq => absurd (mkInvNo_inj y heq) (Nat.ne_of_lt hab))

/-- C1 counterexample: starting from qty 10 ≥ 0, a create whose two line
items each request 6 units of product 1 passes the per-item stock check and
drives the stored qty to -2. -/
theorem c1_counterexample :
    0 ≤ c1Product.qty ∧
    (api_invoice_save c1DB 2024 "2024-01-15" c1BadReq).1 =
      SaveResult.ok 1 "INV-2024-0001" ∧
    ((api_invoice_save c1DB 2024 "2024-01-15" c1BadReq).2.products.map
      (fun p => p.qty)) = [-2] := by
  decide

/-- C1 (amended): for every create request that succeeds and in which each
product id is referenced by at most one line item, every product whose qty
was ≥ 0 before still has qty ≥ 0 after (with primary-key-unique product ids). -/
theorem c1_save_distinct_refs_nonneg (db : DB) (y : Nat) (t : String)
    (req : SaveReq) (i : Nat) (no : String)
    (hok : (api_invoice_save db y t req).1 = SaveResult.ok i no)
    (hnd : (db.products.map (fun p => p.id)).Nodup)
    (p : Product) (hp : p ∈ db.products) (hq : 0 ≤ p.qty)
    (hcount : ((req.items.getD []).filter
      (fun it => it.product_id.getD 0 = p.id)).length ≤ 1) :
    ∀ p' ∈ (api_invoice_save db y t req).2.products, p'.id = p.id → 0 ≤ p'.qty := by
  have hsc := save_ok_stockCheck hok
  intro p' hp' hid'
  rw [save_ok_products hsc] at hp'
  obtain ⟨q, hq_mem, rfl⟩ := List.mem_map.mp hp'
  rw [debit_fn_id] at hid'
  obtain rfl := List.inj_on_of_nodup_map hnd hq_mem hp hid'
  show 0 ≤ (if q.id = 0 then q
    else { q with qty := q.qty - reqSum (req.items.getD []) q.id }).qty
  by_cases h0 : q.id = 0
  · rw [if_pos h0]
    exact hq
  · rw [if_neg h0]
    show 0 ≤ q.qty - reqSum (req.items.getD []) q.id
    cases hfl : (req.items.getD []).filter (fun it => it.product_id.getD 0 = q.id) with
    | nil =>
      simp only [reqSum]
      rw [hfl]
      simpa using hq
    | cons it rest =>
      rw [hfl, List.length_cons] at hcount
      have hrest : rest = [] := List.length_eq_zero.mp (by omega)
      subst hrest
      have hmem2 : it ∈ (req.items.getD []).filter
          (fun it => it.product_id.getD 0 = q.id) := by
        rw [hfl]
        exact List.mem_cons_self it []
      have hit_in : it ∈ req.items.getD [] := List.mem_of_mem_filter hmem2
      have hit_pid : it.product_id.getD 0 = q.id := by
        have := List.of_mem_filter hmem2
        simpa using this
      have hfind : findProduct db.products (it.product_id.getD 0) = some q := by
        rw [hit_pid]
        exact findProduct_of_mem hnd hq_mem
      have hpass := stockCheck_none_pass hsc it hit_in q
        (by rw [hit_pid]; exact h0) hfind
      simp only [reqSum]
      rw [hfl]
      simp only [List.map_cons, List.map_nil, List.sum_cons, List.sum_nil, add_zero]
      omega

/-- C1 witness: one line item for 6 of 10 units leaves qty 4 ≥ 0. -/
theorem c1_save_distinct_refs_nonneg_witness :
    0 ≤ (Product.mk 1 "Widget" 4 0 "" 0 0).qty :=
  c1_save_distinct_refs_nonneg c1DB 2024 "2024-01-15" c1GoodReq 1 "INV-2024-0001"
    (by decide) (by decide) c1Product (by decide) (by decide) (by decide)
    (Product.mk 1 "Widget" 4 0 "" 0 0) (by decide) (by decide)

/-- C4: a create request containing a line item that references an existing
product with insufficient stock returns the 400 InsufficientStock response
whose message names the product, the available quantity and the requested
quantity, and leaves the whole database state unchanged. -/
theorem c4_insufficient_create_atomic (db : DB) (y : Nat) (t : String)
    (req : SaveReq)
    (h : ∃ it ∈ req.items.getD [], it.product_id.getD 0 ≠ 0 ∧
      ∃ p, findProduct db.products (it.product_id.getD 0) = some p ∧
        p.qty < it.qty.getD 0) :
    ∃ it ∈ req.items.getD [], ∃ p, it.product_id.getD 0 ≠ 0 ∧
      findProduct db.products (it.product_id.getD 0) = some p ∧
      p.qty < it.qty.getD 0 ∧
      api_invoice_save db y t req =
        (SaveResult.insufficient (stockMsg p.name p.qty (it.qty.getD 0)), db) := by
  obtain ⟨it, hm, p, hpid, hfind, hlt, hsc⟩ := stockCheck_some_of_fail h
  exact ⟨it, hm, p, hpid, hfind, hlt, save_insufficient_eq hsc⟩

/-- C4 witness: requesting 5 of 2 available units fails with the message
naming the product, the stock and the request, and leaves the state
untouched. -/
theorem c4_insufficient_create_atomic_witness :
    api_invoice_save c4DB 2024 "2024-01-20" c4Req =
      (SaveResult.insufficient (stockMsg "Gadget" 2 5), c4DB) := by
  obtain ⟨it, hm, p, hpid, hfind, hlt, heq⟩ :=
    c4_insufficient_create_atomic c4DB 2024 "2024-01-20" c4Req
      ⟨⟨some 1, some "Gadget", some 5, none, none, none, none⟩, by decide, by decide,
       ⟨1, "Gadget", 2, 0, "", 0, 0⟩, by decide, by decide⟩
  have h1 : it = ⟨some 1, some "Gadget", some 5, none, none, none, none⟩ := by
    have h2 : c4Req.items.getD [] =
        [⟨some 1, some "Gadget", some 5, none, none, none, none⟩] := rfl
    rw [h2] at hm
    simpa using hm
  subst h1
  have h3 : findProduct c4DB.products
      ((⟨some 1, some "Gadget", some 5, none, none, none,
        none⟩ : ReqItem).product_id.getD 0) =
      some ⟨1, "Gadget", 2, 0, "", 0, 0⟩ := by decide
  have h4 : p = ⟨1, "Gadget", 2, 0, "", 0, 0⟩ :=
    Option.some.inj (hfind.symm.trans h3)
  subst h4
  exact heq

/-- C5: an update whose new item set fails the stock validation (run against
the credited products, after the reversal) returns InsufficientStock and the
state afterwards equals the state before the operation started (the
rollback discards the reversal credits and the item deletion). -/
theorem c5_update_validation_rollback (db : DB) (inv_id : Nat) (t : String)
    (req : UpdateReq)
    (h : ∃ it ∈ req.items.getD [], it.product_id.getD 0 ≠ 0 ∧
      ∃ p, findProduct
          (creditOld db.products
            (db.invoice_items.filter (fun r => r.invoice_id = inv_id)))
          (it.product_id.getD 0) = some p ∧ p.qty < it.qty.getD 0) :
    ∃ msg, api_invoice_update db inv_id t req =
      (UpdateResult.insufficient msg, db) := by
  obtain ⟨it, hm, p, hpid, hfind, hlt, hsc⟩ := stockCheck_some_of_fail h
  exact ⟨stockMsg p.name p.qty (it.qty.getD 0), update_insufficient_eq hsc⟩

/-- C5 witness: raising invoice 1's item from 2 to 9 units with 0 in stock
(2 after the reversal) fails and returns the untouched state. -/
theorem c5_update_validation_rollback_witness :
    api_invoice_update c5DB 1 "2024-02-01" c5Req =
      (UpdateResult.insufficient (stockMsg "Widget" 2 9), c5DB) := by
  obtain ⟨msg, heq⟩ :=
    c5_update_validation_rollback c5DB 1 "2024-02-01" c5Req
      ⟨⟨some 1, some "Widget", some 9, none, none, none, none⟩, by decide, by decide,
       ⟨1, "Widget", 2, 0, "", 0, 0⟩, by decide, by decide⟩
  have h2 : (api_invoice_update c5DB 1 "2024-02-01" c5Req).1 =
      UpdateResult.insufficient (stockMsg "Widget" 2 9) := by decide
  rw [heq] at h2
  have h3 : msg = stockMsg "Widget" 2 9 := UpdateResult.insufficient.inj h2
  rw [← h3]
  exact heq

/-- C6 counterexample: invoice 1 holds 5 units of product 1 whose stored qty
has already been driven to -2 (reachable, see the C1 counterexample); the
update that merely reduces the item from 5 to 4 units is rejected, because
the credited stock -2 + 5 = 3 is below 4. -/
theorem c6_counterexample :
    (c6DB.invoice_items.map (fun r => (r.product_id, r.qty))) = [(1, 5)] ∧
    ((c6Req.items.getD []).map
      (fun it => (it.product_id.getD 0, it.qty.getD 0))) = [(1, 4)] ∧
    (api_invoice_update c6DB 1 "2024-01-02" c6Req).1 =
      UpdateResult.insufficient (stockMsg "Widget" 3 4) := by
  decide

/-- C6 (amended): an update of an existing invoice whose new items pair off
with the old items (same product reference, new qty ≤ old qty) always
succeeds, provided every product qty and every old item qty is ≥ 0 at the
start (both hold in any state reachable without the duplicate-line-item
anomaly). -/
theorem c6_update_reduce_succeeds (db : DB) (inv_id : Nat) (t : String)
    (req : UpdateReq)
    (hinv : ∃ inv ∈ db.invoices, inv.id = inv_id)
    (hq : ∀ p ∈ db.products, 0 ≤ p.qty)
    (hold : ∀ r ∈ db.invoice_items.filter (fun r => r.invoice_id = inv_id), 0 ≤ r.qty)
    (hpair : List.Forall₂ (fun (o : InvoiceItem) (n : ReqItem) =>
        n.product_id.getD 0 = o.product_id ∧ n.qty.getD 0 ≤ o.qty)
      (db.invoice_items.filter (fun r => r.invoice_id = inv_id))
      (req.items.getD [])) :
    (api_invoice_update db inv_id t req).1 = UpdateResult.ok := by
  apply update_ok_result
  apply stockCheck_none_of_pass
  intro n hn p hpid hfind hlt
  obtain ⟨o, ho_mem, hpid_eq, hqty_le⟩ := forall2_mem_right hpair hn
  rw [creditOld_eq_map, findProduct_map _ _
    (credit_fn_id (db.invoice_items.filter (fun r => r.invoice_id = inv_id)))] at hfind
  cases hf0 : findProduct db.products (n.product_id.getD 0) with
  | none =>
    rw [hf0] at hfind
    exact Option.noConfusion hfind
  | some p0 =>
    rw [hf0, Option.map_some'] at hfind
    have hfn : (if p0.id = 0 then p0
        else { p0 with qty := (p0.qty + itemsSum
          (db.invoice_items.filter (fun r => r.invoice_id = inv_id)) p0.id) }) = p :=
      Option.some.inj hfind
    obtain ⟨hp0mem, hp0id⟩ := findProduct_mem hf0
    have hne0 : ¬ p0.id = 0 := by
      rw [hp0id]
      exact hpid
    rw [if_neg hne0] at hfn
    have hqty : p.qty = p0.qty + itemsSum
        (db.invoice_items.filter (fun r => r.invoice_id = inv_id)) p0.id := by
      rw [← hfn]
    have ho_sum : o.qty ≤ itemsSum
        (db.invoice_items.filter (fun r => r.invoice_id = inv_id))
        (n.product_id.getD 0) := by
      apply List.single_le_sum
      · intro x hx
        obtain ⟨r, hr_mem, rfl⟩ := List.mem_map.mp hx
        exact hold r (List.mem_of_mem_filter hr_mem)
      · exact List.mem_map_of_mem _ (List.mem_filter.mpr ⟨ho_mem, by simp [hpid_eq]⟩)
    have hp0q := hq p0 hp0mem
    rw [hp0id] at hqty
    omega

/-- C6 witness: reducing invoice 1's item from 5 to 4 units with 1 unit in
stock succeeds (credited stock 1 + 5 = 6 ≥ 4). -/
theorem c6_update_reduce_succeeds_witness :
    (api_invoice_update c6wDB 1 "2024-02-02" c6Req).1 = UpdateResult.ok :=
  c6_update_reduce_succeeds c6wDB 1 "2024-02-02" c6Req
    ⟨⟨1, "INV-2024-0001", 2024, none, "", "", "2024-01-01", 0⟩, by decide, rfl⟩
    (by decide) (by decide)
    (List.Forall₂.cons ⟨rfl, by decide⟩ List.Forall₂.nil)

/-- C10 counterexample: no invoice with id 7 exists, yet the update returns
the 400 InsufficientStock response (not success and not NotFound), because
stock validation fails before anything depends on the header's existence. -/
theorem c10_counterexample :
    c10DB.invoices = [] ∧
    (api_invoice_update c10DB 7 "2024-03-01" c10Req).1 =
      UpdateResult.insufficient (stockMsg "Widget" 0 5) := by
  decide

/-- C10 (amended): an update naming an invoice id with no header row never
returns NotFound; whenever its item set passes stock validation it reports
success, inserts the requested rows tagged with the nonexistent invoice id
(orphan rows), decrements the referenced products, and the header UPDATE
matches no row, leaving the invoices table unchanged. -/
theorem c10_missing_invoice_orphan_rows (db : DB) (inv_id : Nat) (t : String)
    (req : UpdateReq)
    (hno : ∀ inv ∈ db.invoices, inv.id ≠ inv_id)
    (hid : ∀ p ∈ db.products, p.id ≠ 0)
    (hok : stockCheck
        (creditOld db.products
          (db.invoice_items.filter (fun r => r.invoice_id = inv_id)))
        (req.items.getD []) = none) :
    (api_invoice_update db inv_id t req).1 = UpdateResult.ok ∧
    (api_invoice_update db inv_id t req).2.invoices = db.invoices ∧
    (api_invoice_update db inv_id t req).2.invoice_items =
      db.invoice_items.filter (fun r => r.invoice_id ≠ inv_id) ++
        (req.items.getD []).map (fun it => it.toRow inv_id) ∧
    (api_invoice_update db inv_id t req).2.products =
      db.products.map (fun p =>
        { p with qty := (p.qty +
            itemsSum (db.invoice_items.filter (fun r => r.invoice_id = inv_id)) p.id -
            reqSum (req.items.getD []) p.id) }) := by
  refine ⟨update_ok_result hok, ?_, update_ok_items hok, ?_⟩
  · rw [update_ok_invoices hok]
    have hmap : db.invoices.map (fun inv =>
        if inv.id = inv_id then
          { inv with customer_name := orStr req.customer "",
                     customer_phone := orStr req.phone "",
                     date := orStr req.date t, total := req.total.getD 0 }
        else inv) = db.invoices.map id := by
      apply List.map_congr_left
      intro inv hm
      show (if inv.id = inv_id then _ else inv) = id inv
      rw [if_neg (hno inv hm)]
      rfl
    rw [hmap, List.map_id]
  · rw [update_ok_products hok]
    apply List.map_congr_left
    intro p hp
    rw [if_neg (hid p hp)]

/-- C10 witness: updating the nonexistent invoice 9 succeeds, leaves the
invoices table unchanged, inserts the orphan row tagged 9 and decrements
product 1 by the requested 2 units. -/
theorem c10_missing_invoice_orphan_rows_witness :
    (api_invoice_update c10wDB 9 "2024-01-05" c10wReq).1 = UpdateResult.ok ∧
    (api_invoice_update c10wDB 9 "2024-01-05" c10wReq).2.invoices =
      c10wDB.invoices ∧
    (api_invoice_update c10wDB 9 "2024-01-05" c10wReq).2.invoice_items =
      c10wDB.invoice_items.filter (fun r => r.invoice_id ≠ 9) ++
        (c10wReq.items.getD []).map (fun it => it.toRow 9) ∧
    (api_invoice_update c10wDB 9 "2024-01-05" c10wReq).2.products =
      c10wDB.products.map (fun p =>
        { p with qty := (p.qty +
            itemsSum (c10wDB.invoice_items.filter (fun r => r.invoice_id = 9)) p.id -
            reqSum (c10wReq.items.getD []) p.id) }) :=
  c10_missing_invoice_orphan_rows c10wDB 9 "2024-01-05" c10wReq
    (by decide) (by decide) (by decide)

/-- C8: a line item with no product reference (missing, null or zero
product_id) is invisible to the stock pass of both create and update: the
response and the resulting products table are the same as for the request
without that item, no validation is performed for it, and on success its
item row is still inserted. -/
theorem c8_free_line_never_touches_stock (db : DB) (y : Nat) (t : String)
    (inv_id : Nat) (it0 : ReqItem) (l1 l2 : List ReqItem)
    (req : SaveReq) (ureq : UpdateReq)
    (h0 : it0.product_id.getD 0 = 0)
    (hri : req.items = some (l1 ++ it0 :: l2))
    (hui : ureq.items = some (l1 ++ it0 :: l2)) :
    ((api_invoice_save db y t req).1 =
       (api_invoice_save db y t { req with items := some (l1 ++ l2) }).1 ∧
     (api_invoice_save db y t req).2.products =
       (api_invoice_save db y t { req with items := some (l1 ++ l2) }).2.products ∧
     (∀ i no, (api_invoice_save db y t req).1 = SaveResult.ok i no →
        it0.toRow db.next_invoice_id ∈
          (api_invoice_save db y t req).2.invoice_items)) ∧
    ((api_invoice_update db inv_id t ureq).1 =
       (api_invoice_update db inv_id t { ureq with items := some (l1 ++ l2) }).1 ∧
     (api_invoice_update db inv_id t ureq).2.products =
       (api_invoice_update db inv_id t
         { ureq with items := some (l1 ++ l2) }).2.products ∧
     ((api_invoice_update db inv_id t ureq).1 = UpdateResult.ok →
        it0.toRow inv_id ∈ (api_invoice_update db inv_id t ureq).2.invoice_items)) := by
  have hpass : ∀ (ps' : List Product) (p : Product), it0.product_id.getD 0 ≠ 0 →
      findProduct ps' (it0.product_id.getD 0) = some p → ¬ p.qty < it0.qty.getD 0 :=
    fun _ _ hne _ => absurd h0 hne
  have hitems : req.items.getD [] = l1 ++ it0 :: l2 := by rw [hri]; rfl
  have hitems2 : ({ req with items := some (l1 ++ l2) } : SaveReq).items.getD [] =
      l1 ++ l2 := rfl
  have huitems : ureq.items.getD [] = l1 ++ it0 :: l2 := by rw [hui]; rfl
  have huitems2 : ({ ureq with items := some (l1 ++ l2) } : UpdateReq).items.getD [] =
      l1 ++ l2 := rfl
  constructor
  · have hsc1 : stockCheck db.products (req.items.getD []) =
        stockCheck db.products (l1 ++ l2) := by
      rw [hitems]
      exact stockCheck_skip (hpass db.products) l1 l2
    refine ⟨?_, ?_, ?_⟩
    · cases hs2 : stockCheck db.products (l1 ++ l2) with
      | some m =>
        have ha : stockCheck db.products (req.items.getD []) = some m := by
          rw [hsc1, hs2]
        have hb : stockCheck db.products
            (({ req with items := some (l1 ++ l2) } : SaveReq).items.getD []) =
            some m := by
          rw [hitems2, hs2]
        rw [save_insufficient_eq ha, save_insufficient_eq hb]
      | none =>
        have ha : stockCheck db.products (req.items.getD []) = none := by
          rw [hsc1, hs2]
        have hb : stockCheck db.products
            (({ req with items := some (l1 ++ l2) } : SaveReq).items.getD []) =
            none := by
          rw [hitems2, hs2]
        rw [save_ok_result ha, save_ok_result hb]
    · cases hs2 : stockCheck db.products (l1 ++ l2) with
      | some m =>
        have ha : stockCheck db.products (req.items.getD []) = some m := by
          rw [hsc1, hs2]
        have hb : stockCheck db.products
            (({ req with items := some (l1 ++ l2) } : SaveReq).items.getD []) =
            some m := by
          rw [hitems2, hs2]
        rw [save_insufficient_eq ha, save_insufficient_eq hb]
      | none =>
        have ha : stockCheck db.products (req.items.getD []) = none := by
          rw [hsc1, hs2]
        have hb : stockCheck db.products
            (({ req with items := some (l1 ++ l2) } : SaveReq).items.getD []) =
            none := by
          rw [hitems2, hs2]
        rw [save_ok_products ha, save_ok_products hb, hitems, hitems2]
        apply List.map_congr_left
        intro p hp
        by_cases hp0 : p.id = 0
        · rw [if_pos hp0, if_pos hp0]
        · rw [if_neg hp0, if_neg hp0]
          exact congrArg (fun z => ({ p with qty := z } : Product))
            (by rw [reqSum_middle (fun hh => hp0 (hh.symm.trans h0)) l1 l2])
    · intro i no hok
      have hs := save_ok_stockCheck hok
      rw [save_ok_items hs, hitems]
      exact List.mem_append_right _ (List.mem_map_of_mem _ (by simp))
  · have hsc1 : stockCheck (creditOld db.products
        (db.invoice_items.filter (fun r => r.invoice_id = inv_id)))
        (ureq.items.getD []) =
      stockCheck (creditOld db.products
        (db.invoice_items.filter (fun r => r.invoice_id = inv_id))) (l1 ++ l2) := by
      rw [huitems]
      exact stockCheck_skip (hpass _) l1 l2
    refine ⟨?_, ?_, ?_⟩
    · cases hs2 : stockCheck (creditOld db.products
          (db.invoice_items.filter (fun r => r.invoice_id = inv_id))) (l1 ++ l2) with
      | some m =>
        have ha : stockCheck (creditOld db.products
            (db.invoice_items.filter (fun r => r.invoice_id = inv_id)))
            (ureq.items.getD []) = some m := by
          rw [hsc1, hs2]
        have hb : stockCheck (creditOld db.products
            (db.invoice_items.filter (fun r => r.invoice_id = inv_id)))
            (({ ureq with items := some (l1 ++ l2) } : UpdateReq).items.getD []) =
            some m := by
          rw [huitems2, hs2]
        rw [update_insufficient_eq ha, update_insufficient_eq hb]
      | none =>
        have ha : stockCheck (creditOld db.products
            (db.invoice_items.filter (fun r => r.invoice_id = inv_id)))
            (ureq.items.getD []) = none := by
          rw [hsc1, hs2]
        have hb : stockCheck (creditOld db.products
            (db.invoice_items.filter (fun r => r.invoice_id = inv_id)))
            (({ ureq with items := some (l1 ++ l2) } : UpdateReq).items.getD []) =
            none := by
          rw [huitems2, hs2]
        rw [update_ok_result ha, update_ok_result hb]
    · cases hs2 : stockCheck (creditOld db.products
          (db.invoice_items.filter (fun r => r.invoice_id = inv_id))) (l1 ++ l2) with
      | some m =>
        have ha : stockCheck (creditOld db.products
            (db.invoice_items.filter (fun r => r.invoice_id = inv_id)))
            (ureq.items.getD []) = some m := by
          rw [hsc1, hs2]
        have hb : stockCheck (creditOld db.products
            (db.invoice_items.filter (fun r => r.invoice_id = inv_id)))
            (({ ureq with items := some (l1 ++ l2) } : UpdateReq).items.getD []) =
            some m := by
          rw [huitems2, hs2]
        rw [update_insufficient_eq ha, update_insufficient_eq hb]
      | none =>
        have ha : stockCheck (creditOld db.products
            (db.invoice_items.filter (fun r => r.invoice_id = inv_id)))
            (ureq.items.getD []) = none := by
          rw [hsc1, hs2]
        have hb : stockCheck (creditOld db.products
            (db.invoice_items.filter (fun r => r.invoice_id = inv_id)))
            (({ ureq with items := some (l1 ++ l2) } : UpdateReq).items.getD []) =
            none := by
          rw [huitems2, hs2]
        rw [update_ok_products ha, update_ok_products hb, huitems, huitems2]
        apply List.map_congr_left
        intro p hp
        by_cases hp0 : p.id = 0
        · rw [if_pos hp0, if_pos hp0]
        · rw [if_neg hp0, if_neg hp0]
          exact congrArg (fun z => ({ p with qty := z } : Product))
            (by rw [reqSum_middle (fun hh => hp0 (hh.symm.trans h0)) l1 l2])
    · intro hok
      have hs := update_ok_stockCheck hok
      rw [update_ok_items hs, huitems]
      exact List.mem_append_right _ (List.mem_map_of_mem _ (by simp))

/-- C8 witness: a request mixing a product item and a free line gives the
same response and products table as the request without the free line, and
the free line's row is still inserted, for both create and update. -/
theorem c8_free_line_never_touches_stock_witness :
    ((api_invoice_save c8DB 2024 "2024-04-01" c8SaveReq).1 =
       (api_invoice_save c8DB 2024 "2024-04-01"
         { c8SaveReq with items := some ([c8RegItem] ++ []) }).1 ∧
     (api_invoice_save c8DB 2024 "2024-04-01" c8SaveReq).2.products =
       (api_invoice_save c8DB 2024 "2024-04-01"
         { c8SaveReq with items := some ([c8RegItem] ++ []) }).2.products ∧
     c8FreeItem.toRow c8DB.next_invoice_id ∈
       (api_invoice_save c8DB 2024 "2024-04-01" c8SaveReq).2.invoice_items) ∧
    ((api_invoice_update c8DB 1 "2024-04-01" c8UpdReq).1 =
       (api_invoice_update c8DB 1 "2024-04-01"
         { c8UpdReq with items := some ([c8RegItem] ++ []) }).1 ∧
     (api_invoice_update c8DB 1 "2024-04-01" c8UpdReq).2.products =
       (api_invoice_update c8DB 1 "2024-04-01"
         { c8UpdReq with items := some ([c8RegItem] ++ []) }).2.products ∧
     c8FreeItem.toRow 1 ∈
       (api_invoice_update c8DB 1 "2024-04-01" c8UpdReq).2.invoice_items) := by
  obtain ⟨⟨hs1, hs2, hs3⟩, hu1, hu2, hu3⟩ :=
    c8_free_line_never_touches_stock c8DB 2024 "2024-04-01" 1 c8FreeItem
      [c8RegItem] [] c8SaveReq c8UpdReq rfl rfl rfl
  exact ⟨⟨hs1, hs2, hs3 2 "INV-2024-0002" (by decide)⟩, hu1, hu2, hu3 (by decide)⟩

/-- C9: a line item whose nonzero product_id matches no product row passes
the stock validation of create and update regardless of its qty, changes no
product row, and on success its row is persisted with the dangling
product_id: response and products table equal those of the request without
the item, which is still inserted. -/
theorem c9_dangling_product_id_ignored (db : DB) (y : Nat) (t : String)
    (inv_id : Nat) (it0 : ReqItem) (l1 l2 : List ReqItem)
    (req : SaveReq) (ureq : UpdateReq)
    (h0 : it0.product_id.getD 0 ≠ 0)
    (hmiss : findProduct db.products (it0.product_id.getD 0) = none)
    (hri : req.items = some (l1 ++ it0 :: l2))
    (hui : ureq.items = some (l1 ++ it0 :: l2)) :
    ((api_invoice_save db y t req).1 =
       (api_invoice_save db y t { req with items := some (l1 ++ l2) }).1 ∧
     (api_invoice_save db y t req).2.products =
       (api_invoice_save db y t { req with items := some (l1 ++ l2) }).2.products ∧
     (∀ i no, (api_invoice_save db y t req).1 = SaveResult.ok i no →
        it0.toRow db.next_invoice_id ∈
          (api_invoice_save db y t req).2.invoice_items)) ∧
    ((api_invoice_update db inv_id t ureq).1 =
       (api_invoice_update db inv_id t { ureq with items := some (l1 ++ l2) }).1 ∧
     (api_invoice_update db inv_id t ureq).2.products =
       (api_invoice_update db inv_id t
         { ureq with items := some (l1 ++ l2) }).2.products ∧
     ((api_invoice_update db inv_id t ureq).1 = UpdateResult.ok →
        it0.toRow inv_id ∈ (api_invoice_update db inv_id t ureq).2.invoice_items)) := by
  have hpassS : ∀ p : Product, it0.product_id.getD 0 ≠ 0 →
      findProduct db.products (it0.product_id.getD 0) = some p →
      ¬ p.qty < it0.qty.getD 0 := fun p _ hf => by
    rw [hmiss] at hf
    exact Option.noConfusion hf
  have hmiss1 : findProduct (creditOld db.products
      (db.invoice_items.filter (fun r => r.invoice_id = inv_id)))
      (it0.product_id.getD 0) = none := by
    rw [creditOld_eq_map, findProduct_map _ _ (credit_fn_id
      (db.invoice_items.filter (fun r => r.invoice_id = inv_id))), hmiss]
    rfl
  have hpassU : ∀ p : Product, it0.product_id.getD 0 ≠ 0 →
      findProduct (creditOld db.products
        (db.invoice_items.filter (fun r => r.invoice_id = inv_id)))
        (it0.product_id.getD 0) = some p →
      ¬ p.qty < it0.qty.getD 0 := fun p _ hf => by
    rw [hmiss1] at hf
    exact Option.noConfusion hf
  have hne : ∀ p ∈ db.products, ¬ it0.product_id.getD 0 = p.id :=
    fun p hp hh => findProduct_none_mem hmiss p hp hh.symm
  have hitems : req.items.getD [] = l1 ++ it0 :: l2 := by rw [hri]; rfl
  have hitems2 : ({ req with items := some (l1 ++ l2) } : SaveReq).items.getD [] =
      l1 ++ l2 := rfl
  have huitems : ureq.items.getD [] = l1 ++ it0 :: l2 := by rw [hui]; rfl
  have huitems2 : ({ ureq with items := some (l1 ++ l2) } : UpdateReq).items.getD [] =
      l1 ++ l2 := rfl
  constructor
  · have hsc1 : stockCheck db.products (req.items.getD []) =
        stockCheck db.products (l1 ++ l2) := by
      rw [hitems]
      exact stockCheck_skip hpassS l1 l2
    refine ⟨?_, ?_, ?_⟩
    · cases hs2 : stockCheck db.products (l1 ++ l2) with
      | some m =>
        have ha : stockCheck db.products (req.items.getD []) = some m := by
          rw [hsc1, hs2]
        have hb : stockCheck db.products
            (({ req with items := some (l1 ++ l2) } : SaveReq).items.getD []) =
            some m := by
          rw [hitems2, hs2]
        rw [save_insufficient_eq ha, save_insufficient_eq hb]
      | none =>
        have ha : stockCheck db.products (req.items.getD []) = none := by
          rw [hsc1, hs2]
        have hb : stockCheck db.products
            (({ req with items := some (l1 ++ l2) } : SaveReq).items.getD []) =
            none := by
          rw [hitems2, hs2]
        rw [save_ok_result ha, save_ok_result hb]
    · cases hs2 : stockCheck db.products (l1 ++ l2) with
      | some m =>
        have ha : stockCheck db.products (req.items.getD []) = some m := by
          rw [hsc1, hs2]
        have hb : stockCheck db.products
            (({ req with items := some (l1 ++ l2) } : SaveReq).items.getD []) =
            some m := by
          rw [hitems2, hs2]
        rw [save_insufficient_eq ha, save_insufficient_eq hb]
      | none =>
        have ha : stockCheck db.products (req.items.getD []) = none := by
          rw [hsc1, hs2]
        have hb : stockCheck db.products
            (({ req with items := some (l1 ++ l2) } : SaveReq).items.getD []) =
            none := by
          rw [hitems2, hs2]
        rw [save_ok_products ha, save_ok_products hb, hitems, hitems2]
        apply List.map_congr_left
        intro p hp
        by_cases hp0 : p.id = 0
        · rw [if_pos hp0, if_pos hp0]
        · rw [if_neg hp0, if_neg hp0]
          exact congrArg (fun z => ({ p with qty := z } : Product))
            (by rw [reqSum_middle (hne p hp) l1 l2])
    · intro i no hok
      have hs := save_ok_stockCheck hok
      rw [save_ok_items hs, hitems]
      exact List.mem_append_right _ (List.mem_map_of_mem _ (by simp))
  · have hsc1 : stockCheck (creditOld db.products
        (db.invoice_items.filter (fun r => r.invoice_id = inv_id)))
        (ureq.items.getD []) =
      stockCheck (creditOld db.products
        (db.invoice_items.filter (fun r => r.invoice_id = inv_id))) (l1 ++ l2) := by
      rw [huitems]
      exact stockCheck_skip hpassU l1 l2
    refine ⟨?_, ?_, ?_⟩
    · cases hs2 : stockCheck (creditOld db.products
          (db.invoice_items.filter (fun r => r.invoice_id = inv_id))) (l1 ++ l2) with
      | some m =>
        have ha : stockCheck (creditOld db.products
            (db.invoice_items.filter (fun r => r.invoice_id = inv_id)))
            (ureq.items.getD []) = some m := by
          rw [hsc1, hs2]
        have hb : stockCheck (creditOld db.products
            (db.invoice_items.filter (fun r => r.invoice_id = inv_id)))
            (({ ureq with items := some (l1 ++ l2) } : UpdateReq).items.getD []) =
            some m := by
          rw [huitems2, hs2]
        rw [update_insufficient_eq ha, update_insufficient_eq hb]
      | none =>
        have ha : stockCheck (creditOld db.products
            (db.invoice_items.filter (fun r => r.invoice_id = inv_id)))
            (ureq.items.getD []) = none := by
          rw [hsc1, hs2]
        have hb : stockCheck (creditOld db.products
            (db.invoice_items.filter (fun r => r.invoice_id = inv_id)))
            (({ ureq with items := some (l1 ++ l2) } : UpdateReq).items.getD []) =
            none := by
          rw [huitems2, hs2]
        rw [update_ok_result ha, update_ok_result hb]
    · cases hs2 : stockCheck (creditOld db.products
          (db.invoice_items.filter (fun r => r.invoice_id = inv_id))) (l1 ++ l2) with
      | some m =>
        have ha : stockCheck (creditOld db.products
            (db.invoice_items.filter (fun r => r.invoice_id = inv_id)))
            (ureq.items.getD []) = some m := by
          rw [hsc1, hs2]
        have hb : stockCheck (creditOld db.products
            (db.invoice_items.filter (fun r => r.invoice_id = inv_id)))
            (({ ureq with items := some (l1 ++ l2) } : UpdateReq).items.getD []) =
            some m := by
          rw [huitems2, hs2]
        rw [update_insufficient_eq ha, update_insufficient_eq hb]
      | none =>
        have ha : stockCheck (creditOld db.products
            (db.invoice_items.filter (fun r => r.invoice_id = inv_id)))
            (ureq.items.getD []) = none := by
          rw [hsc1, hs2]
        have hb : stockCheck (creditOld db.products
            (db.invoice_items.filter (fun r => r.invoice_id = inv_id)))
            (({ ureq with items := some (l1 ++ l2) } : UpdateReq).items.getD []) =
            none := by
          rw [huitems2, hs2]
        rw [update_ok_products ha, update_ok_products hb, huitems, huitems2]
        apply List.map_congr_left
        intro p hp
        by_cases hp0 : p.id = 0
        · rw [if_pos hp0, if_pos hp0]
        · rw [if_neg hp0, if_neg hp0]
          exact congrArg (fun z => ({ p with qty := z } : Product))
            (by rw [reqSum_middle (hne p hp) l1 l2])
    · intro hok
      have hs := update_ok_stockCheck hok
      rw [update_ok_items hs, huitems]
      exact List.mem_append_right _ (List.mem_map_of_mem _ (by simp))

/-- C9 witness: a request mixing a product item and an item with dangling
product_id 77 behaves like the request without it, yet the dangling row is
persisted, for both create and update. -/
theorem c9_dangling_product_id_ignored_witness :
    ((api_invoice_save c8DB 2024 "2024-04-02" c9SaveReq).1 =
       (api_invoice_save c8DB 2024 "2024-04-02"
         { c9SaveReq with items := some ([c8RegItem] ++ []) }).1 ∧
     (api_invoice_save c8DB 2024 "2024-04-02" c9SaveReq).2.products =
       (api_invoice_save c8DB 2024 "2024-04-02"
         { c9SaveReq with items := some ([c8RegItem] ++ []) }).2.products ∧
     c9DanglingItem.toRow c8DB.next_invoice_id ∈
       (api_invoice_save c8DB 2024 "2024-04-02" c9SaveReq).2.invoice_items) ∧
    ((api_invoice_update c8DB 1 "2024-04-02" c9UpdReq).1 =
       (api_invoice_update c8DB 1 "2024-04-02"
         { c9UpdReq with items := some ([c8RegItem] ++ []) }).1 ∧
     (api_invoice_update c8DB 1 "2024-04-02" c9UpdReq).2.products =
       (api_invoice_update c8DB 1 "2024-04-02"
         { c9UpdReq with items := some ([c8RegItem] ++ []) }).2.products ∧
     c9DanglingItem.toRow 1 ∈
       (api_invoice_update c8DB 1 "2024-04-02" c9UpdReq).2.invoice_items) := by
  obtain ⟨⟨hs1, hs2, hs3⟩, hu1, hu2, hu3⟩ :=
    c9_dangling_product_id_ignored c8DB 2024 "2024-04-02" 1 c9DanglingItem
      [c8RegItem] [] c9SaveReq c9UpdReq (by decide) (by decide) rfl rfl
  exact ⟨⟨hs1, hs2, hs3 2 "INV-2024-0002" (by decide)⟩, hu1, hu2, hu3 (by decide)⟩

end StockApp
